import Mathlib

/-!
# Printer remote firmware: the control loop of `src/firmware/src/main.cpp`

A shallow embedding of `loop()` and of the state it reads and writes.  The
global variables of the firmware become the fields of `State`, one call of
`loop()` becomes the function `loop`, and everything the call does to the
outside world (serial lines, pin reads and writes, HID transport calls) is
returned as an ordered list of `Effect`s.

Machine integers: `unsigned int` and `unsigned long` are 32 bits wide on the
nRF52 (ARM Cortex-M4) target, so times are naturals reduced modulo `2^32`
and every subtraction of two times is `sub32`.  `int` values are `Int`.
-/

namespace PrinterRemote

/-! ## Constants -/

/-- Arduino core logic level `LOW` (the core header defines it as 0). -/
def LOW : Int := 0

/-- Arduino core logic level `HIGH` (the core header defines it as 1). -/
def HIGH : Int := 1

/-- HID usage code of "no key", from the HID header pulled in by `bluefruit.h`. -/
def HID_KEY_NONE : Nat := 0

/-- HID usage code of the volume-down key, from the HID header pulled in by `bluefruit.h`. -/
def HID_KEY_VOLUME_DOWN : Nat := 0x81

/-- Line 21: the built-in user button. -/
def BUTTON_BOARD_PIN : Nat := 7

/-- Line 47: how often to blink if connected. -/
def CONNECTED_BLINK_INTERVAL_MS : Nat := 10000

/-- Line 48: how often to blink if not connected. -/
def CONNECTING_BLINK_INTERVAL_MS : Nat := 1000

/-- Line 49: how long to attempt to connect to a host before giving up. -/
def CONNECTION_GIVE_UP_DURATION_MS : Nat := 30000

/-- Line 50: how long to show the led when blinking. -/
def CONNECTION_BLINK_ON_DURATION_MS : Nat := 10

/-- Line 51: minimum interval at which to check and report button presses. -/
def REPORT_BUTTONS_CHANGED_INTERVAL_MS : Nat := 1000

/-- Number of values of a 32-bit unsigned integer. -/
def WORD : Nat := 2 ^ 32

/-- Unsigned 32-bit subtraction `a - b`, as C computes it on `unsigned long`. -/
def sub32 (a b : Nat) : Nat := (a % WORD + WORD - b % WORD) % WORD

/-- Size of the `keyCodes` array of line 182. -/
def KEY_CODE_SLOTS : Nat := 6

/-! ## Configuration, state, inputs and effects -/

/-- The button tables of lines 29-44 and the led pin of line 26.  The arrays
are declared with `BUTTON_COUNT` elements; reading a list past its end gives
0, as a C++ array initialiser shorter than the array is zero-filled. -/
structure Config where
  BUTTON_COUNT : Nat
  BUTTON_PINS : List Nat
  BUTTON_MAPPING : List Nat
  CONNECTION_LED_PIN : Nat
deriving DecidableEq, Repr

/-- The configuration compiled into the firmware.  The pin numbers `A0` and
`LED_CONN` come from the board variant header and are parameters here. -/
def firmwareConfig (A0 LED_CONN : Nat) : Config :=
  { BUTTON_COUNT := 2
    BUTTON_PINS := [BUTTON_BOARD_PIN, A0]
    BUTTON_MAPPING := [HID_KEY_VOLUME_DOWN, HID_KEY_VOLUME_DOWN]
    CONNECTION_LED_PIN := LED_CONN }

/-- The global variables of lines 54-62. -/
structure State where
  lastButtonPressTime : Nat
  lastReportBatteryTime : Nat
  lastConnectionBlinkToggleTime : Nat
  lastConnectedTime : Nat
  lastPressedButtonCount : Int
  connectionBlinkState : Int
  activeProfileIndex : Int
  wasConnected : Bool
  haveReportedBattery : Bool
deriving DecidableEq, Repr

/-- The globals as initialised at lines 54-62. -/
def powerOn : State :=
  { lastButtonPressTime := 0
    lastReportBatteryTime := 0
    lastConnectionBlinkToggleTime := 0
    lastConnectedTime := 0
    lastPressedButtonCount := 0
    connectionBlinkState := LOW
    activeProfileIndex := 0
    wasConnected := false
    haveReportedBattery := false }

/-- The state after `setup()`: line 133 stores `millis()` in `lastButtonPressTime`. -/
def setup (millis : Nat) : State :=
  { powerOn with lastButtonPressTime := millis % WORD }

/-- What one call of `loop()` reads from the outside world: the clock, the
number of connections reported by `Bluefruit.connected()`, and the level
`digitalRead` returns for each pin. -/
structure Input where
  millis : Nat
  connected : Nat
  digitalRead : Nat → Int

/-- The lines `loop()` prints on the serial port. -/
inductive SerialMsg where
  | connectionEstablished
  | connectionLost
  | reporting (pressedButtonCount : Nat)
  | releasingButtons
  | connecting (timeSinceLastConnected : Nat) (giveUp : Nat)
deriving DecidableEq, Repr

/-- The calls `loop()` makes into the outside world. -/
inductive Effect where
  | serial (msg : SerialMsg)
  | digitalRead (pin : Nat)
  | keyboardReport (modifier : Nat) (keyCodes : List Nat)
  | keyRelease
  | digitalWrite (pin : Nat) (level : Int)
deriving DecidableEq, Repr

/-! ## The sampling loop, lines 181-221 -/

/-- One execution of the assignment `keyCodes[keyCodeIndex] = keyCode` of line 214,
recorded with the button index `i` whose iteration made it. -/
structure BufferWrite where
  button : Nat
  keyCodeIndex : Nat
  keyCode : Nat
deriving DecidableEq, Repr

/-- The local variables of the sampling block, together with the pins read
and the buffer writes made so far. -/
structure Scan where
  keyCodes : List Nat
  pressedButtonCount : Nat
  pinReads : List Nat
  bufferWrites : List BufferWrite
deriving DecidableEq, Repr

/-- Lines 182-188: six slots of `HID_KEY_NONE` and a count of zero. -/
def Scan.start : Scan :=
  { keyCodes := List.replicate KEY_CODE_SLOTS HID_KEY_NONE
    pressedButtonCount := 0
    pinReads := []
    bufferWrites := [] }

/-- The `for` loop of lines 190-221 from index `i` on, with `remaining`
iterations left before `i < BUTTON_COUNT` fails (`i + remaining = BUTTON_COUNT`). -/
def scanFrom (cfg : Config) (digitalRead : Nat → Int) : Nat → Nat → Scan → Scan
  | 0, _, sc => sc
  | remaining + 1, i, sc =>
    let pin := cfg.BUTTON_PINS.getD i 0
    let sc := { sc with pinReads := sc.pinReads ++ [pin] }
    let isButtonDown := decide (digitalRead pin = LOW)
    if !isButtonDown then
      scanFrom cfg digitalRead remaining (i + 1) sc
    else
      let keyCode := cfg.BUTTON_MAPPING.getD i 0
      let keyCodeIndex := sc.pressedButtonCount
      let sc : Scan :=
        { keyCodes := sc.keyCodes.set keyCodeIndex keyCode
          pressedButtonCount := sc.pressedButtonCount + 1
          pinReads := sc.pinReads
          bufferWrites := sc.bufferWrites ++ [⟨i, keyCodeIndex, keyCode⟩] }
      if sc.pressedButtonCount = 6 then sc
      else scanFrom cfg digitalRead remaining (i + 1) sc

/-- Lines 182-221: the whole sampling block. -/
def sampleButtons (cfg : Config) (digitalRead : Nat → Int) : Scan :=
  scanFrom cfg digitalRead cfg.BUTTON_COUNT 0 Scan.start

/-! ## The three parts of `loop()` -/

/-- Lines 142-169: connection edges and their side effects. -/
structure Tracked where
  state : State
  effects : List Effect
  isConnected : Bool
  connectionEstablished : Bool
  connectionLost : Bool

/-- Lines 142-169. -/
def trackConnection (s : State) (currentTime : Nat) (connected : Nat) : Tracked :=
  let isConnected := decide (connected > 0)
  let connectionEstablished := isConnected && !s.wasConnected
  let connectionLost := !isConnected && s.wasConnected
  let s := { s with wasConnected := isConnected }
  let s := if isConnected then { s with lastConnectedTime := currentTime } else s
  if connectionEstablished then
    { state := { s with lastButtonPressTime := currentTime }
      effects := [Effect.serial SerialMsg.connectionEstablished]
      isConnected := isConnected
      connectionEstablished := connectionEstablished
      connectionLost := connectionLost }
  else if connectionLost then
    { state := { s with haveReportedBattery := false }
      effects := [Effect.serial SerialMsg.connectionLost]
      isConnected := isConnected
      connectionEstablished := connectionEstablished
      connectionLost := connectionLost }
  else
    { state := s
      effects := []
      isConnected := isConnected
      connectionEstablished := connectionEstablished
      connectionLost := connectionLost }

/-- Lines 223-248: report or release when the count changed, then refresh
`lastButtonPressTime` when a button is down. -/
def reportButtons (s : State) (currentTime : Nat) (sc : Scan) : State × List Effect :=
  let r : State × List Effect :=
    if (sc.pressedButtonCount : Int) ≠ s.lastPressedButtonCount then
      if sc.pressedButtonCount > 0 then
        ({ s with lastPressedButtonCount := sc.pressedButtonCount },
          [Effect.serial (SerialMsg.reporting sc.pressedButtonCount),
           Effect.keyboardReport 0 sc.keyCodes])
      else
        ({ s with lastPressedButtonCount := sc.pressedButtonCount },
          [Effect.serial SerialMsg.releasingButtons, Effect.keyRelease])
    else (s, [])
  if sc.pressedButtonCount > 0 then
    ({ r.1 with lastButtonPressTime := currentTime }, r.2)
  else r

/-- Result of the led part of `loop()`, lines 251-289, with its locals. -/
structure Indicated where
  state : State
  effects : List Effect
  blinkInterval : Nat
  timeSinceLastBlink : Nat
  targetConnectionLedState : Int

/-- Lines 251-289: the led part of `loop()`. -/
def scheduleIndicator (cfg : Config) (s : State) (currentTime : Nat) (isConnected : Bool)
    (timeSinceLastConnected : Nat) : Indicated :=
  let blinkInterval :=
    if isConnected then CONNECTED_BLINK_INTERVAL_MS else CONNECTING_BLINK_INTERVAL_MS
  let timeSinceLastBlink := sub32 currentTime s.lastConnectionBlinkToggleTime
  let s :=
    if timeSinceLastBlink ≥ blinkInterval then
      { s with lastConnectionBlinkToggleTime := currentTime }
    else s
  let targetConnectionLedState :=
    if timeSinceLastBlink ≤ CONNECTION_BLINK_ON_DURATION_MS then HIGH else LOW
  if targetConnectionLedState ≠ s.connectionBlinkState then
    { state := { s with connectionBlinkState := targetConnectionLedState }
      effects :=
        (if !isConnected then
          [Effect.serial (SerialMsg.connecting timeSinceLastConnected
            CONNECTION_GIVE_UP_DURATION_MS)]
         else []) ++
        [Effect.digitalWrite cfg.CONNECTION_LED_PIN targetConnectionLedState]
      blinkInterval := blinkInterval
      timeSinceLastBlink := timeSinceLastBlink
      targetConnectionLedState := targetConnectionLedState }
  else
    { state := s
      effects := []
      blinkInterval := blinkInterval
      timeSinceLastBlink := timeSinceLastBlink
      targetConnectionLedState := targetConnectionLedState }

/-! ## One call of `loop()` -/

/-- What one call of `loop()` leaves behind: the new globals, the effects in
the order they happened, and the values of its local variables.  `sample` is
`some` exactly when the body of the `if` of line 178 ran. -/
structure Outcome where
  state : State
  effects : List Effect
  currentTime : Nat
  isConnected : Bool
  connectionEstablished : Bool
  connectionLost : Bool
  timeSinceLastButtonPress : Nat
  timeSinceLastConnected : Nat
  sample : Option Scan
  blinkInterval : Nat
  timeSinceLastBlink : Nat
  targetConnectionLedState : Int

/-- Lines 137-290: one call of `loop()`. -/
def loop (cfg : Config) (s : State) (inp : Input) : Outcome :=
  let currentTime := inp.millis % WORD
  let tr := trackConnection s currentTime inp.connected
  let timeSinceLastButtonPress := sub32 currentTime tr.state.lastButtonPressTime
  let timeSinceLastConnected := sub32 currentTime tr.state.lastConnectedTime
  let sample : Option Scan :=
    if tr.isConnected && decide (timeSinceLastButtonPress ≥ REPORT_BUTTONS_CHANGED_INTERVAL_MS)
    then some (sampleButtons cfg inp.digitalRead) else none
  let rep : State × List Effect :=
    match sample with
    | some sc =>
      let r := reportButtons tr.state currentTime sc
      (r.1, sc.pinReads.map Effect.digitalRead ++ r.2)
    | none => (tr.state, [])
  let ind := scheduleIndicator cfg rep.1 currentTime tr.isConnected timeSinceLastConnected
  { state := ind.state
    effects := tr.effects ++ rep.2 ++ ind.effects
    currentTime := currentTime
    isConnected := tr.isConnected
    connectionEstablished := tr.connectionEstablished
    connectionLost := tr.connectionLost
    timeSinceLastButtonPress := timeSinceLastButtonPress
    timeSinceLastConnected := timeSinceLastConnected
    sample := sample
    blinkInterval := ind.blinkInterval
    timeSinceLastBlink := ind.timeSinceLastBlink
    targetConnectionLedState := ind.targetConnectionLedState }

/-- Successive calls of `loop()`, one per input, each starting from the
globals the previous call left. -/
def run (cfg : Config) : State → List Input → List Outcome
  | _, [] => []
  | s, inp :: rest =>
    let o := loop cfg s inp
    o :: run cfg o.state rest

/-! ## Observations on effects -/

/-- Whether an effect is a call into the HID transport. -/
def Effect.isTransport : Effect → Bool
  | Effect.keyboardReport _ _ => true
  | Effect.keyRelease => true
  | _ => false

/-- The HID transport calls among some effects, in order. -/
def transportCalls (es : List Effect) : List Effect :=
  es.filter Effect.isTransport

/-- The `digitalWrite` calls among some effects, in order, each as (pin, level). -/
def pinWrites : List Effect → List (Nat × Int)
  | [] => []
  | Effect.digitalWrite pin level :: es => (pin, level) :: pinWrites es
  | _ :: es => pinWrites es

/-- The transport call the dispatcher makes for a sample whose count changed. -/
def reportCall (sc : Scan) : Effect :=
  if sc.pressedButtonCount > 0 then Effect.keyboardReport 0 sc.keyCodes else Effect.keyRelease

/-! ## Concrete scenario data -/

/-- Configuration used in the concrete scenarios: `A0` is pin 14 and `LED_CONN` is pin 4. -/
def demoConfig : Config := firmwareConfig 14 4

/-- An input with the given clock, connection count and levels of the two button pins. -/
def demoInput (millis connected : Nat) (boardLevel remoteLevel : Int) : Input :=
  { millis := millis
    connected := connected
    digitalRead := fun pin =>
      if pin = BUTTON_BOARD_PIN then boardLevel else if pin = 14 then remoteLevel else HIGH }

/-- The globals after `setup()` at time 0 and one connected call of `loop()` at time 0. -/
def demoConnected : State := (loop demoConfig (setup 0) (demoInput 0 1 HIGH HIGH)).state

/-- The five sampling inputs of the C2 scenario: no button, then the board button, the
board button again, both buttons, and no button. -/
def demoPresses : List Input :=
  [demoInput 1000 1 HIGH HIGH, demoInput 1001 1 LOW HIGH, demoInput 2001 1 LOW HIGH,
   demoInput 3001 1 LOW LOW, demoInput 4001 1 HIGH HIGH]

/-! ## Reference definition of the sample set (spec 4.1) -/

/-- Whether button `i` is active: its pin reads the active-low level. -/
def specIsActive (cfg : Config) (digitalRead : Nat → Int) (i : Nat) : Bool :=
  decide (digitalRead (cfg.BUTTON_PINS.getD i 0) = LOW)

/-- The indices of the active buttons, in increasing order. -/
def specActiveButtons (cfg : Config) (digitalRead : Nat → Int) : List Nat :=
  (List.range cfg.BUTTON_COUNT).filter (specIsActive cfg digitalRead)

/-- The mapped output codes of the active buttons, in index order. -/
def specActiveCodes (cfg : Config) (digitalRead : Nat → Int) : List Nat :=
  (specActiveButtons cfg digitalRead).map (fun i => cfg.BUTTON_MAPPING.getD i 0)

/-! ## One iteration of the sampling loop -/

/-- The sampling locals after line 193 read the pin of button `i`. -/
def Scan.afterRead (sc : Scan) (cfg : Config) (i : Nat) : Scan :=
  { sc with pinReads := sc.pinReads ++ [cfg.BUTTON_PINS.getD i 0] }

/-- The sampling locals after lines 193-214 found button `i` down and stored its code. -/
def Scan.afterStore (sc : Scan) (cfg : Config) (i : Nat) : Scan :=
  { keyCodes := sc.keyCodes.set sc.pressedButtonCount (cfg.BUTTON_MAPPING.getD i 0)
    pressedButtonCount := sc.pressedButtonCount + 1
    pinReads := sc.pinReads ++ [cfg.BUTTON_PINS.getD i 0]
    bufferWrites := sc.bufferWrites ++
      [⟨i, sc.pressedButtonCount, cfg.BUTTON_MAPPING.getD i 0⟩] }

/-! ## Scenario data for the sampler -/

/-- A configuration with eight buttons on pins 1 to 8, mapped to codes 11 to 18. -/
def demoEightButtons : Config :=
  { BUTTON_COUNT := 8
    BUTTON_PINS := [1, 2, 3, 4, 5, 6, 7, 8]
    BUTTON_MAPPING := [11, 12, 13, 14, 15, 16, 17, 18]
    CONNECTION_LED_PIN := 0 }

/-- Pin levels with every pin LOW except pin 2. -/
def demoAllButSecond : Nat → Int := fun pin => if pin = 2 then HIGH else LOW

/-- Pin levels with every pin LOW. -/
def demoAllDown : Nat → Int := fun _ => LOW

/-! ## Connection edges -/

/-- The two transitions the connection tracker reports. -/
inductive Edge where
  | established
  | lost
deriving DecidableEq, Repr

/-- The transitions flagged by one call of `loop()` (lines 143-144). -/
def Outcome.edges (o : Outcome) : List Edge :=
  (if o.connectionEstablished then [Edge.established] else []) ++
    (if o.connectionLost then [Edge.lost] else [])

/-- The raw connection status line 142 derives from `Bluefruit.connected()`. -/
def Input.rawConnected (inp : Input) : Bool := decide (inp.connected > 0)

/-- Inputs whose raw connection samples are true, true, false, false, true, at times 0 to 4. -/
def demoConnections : List Input :=
  [demoInput 0 1 HIGH HIGH, demoInput 1 1 HIGH HIGH, demoInput 2 0 HIGH HIGH,
   demoInput 3 0 HIGH HIGH, demoInput 4 2 HIGH HIGH]

/-! ## Locals of the led part -/

/-- The blink interval chosen at line 255. -/
def blinkIntervalFor (isConnected : Bool) : Nat :=
  if isConnected then CONNECTED_BLINK_INTERVAL_MS else CONNECTING_BLINK_INTERVAL_MS

/-- The led level chosen at lines 264-271 from `timeSinceLastBlink`. -/
def targetLevelFor (timeSinceLastBlink : Nat) : Int :=
  if timeSinceLastBlink ≤ CONNECTION_BLINK_ON_DURATION_MS then HIGH else LOW

/-- Five disconnected calls at times 0, 5, 11, 1000 and 1001 ms. -/
def demoBlink : List Input :=
  [demoInput 0 0 HIGH HIGH, demoInput 5 0 HIGH HIGH, demoInput 11 0 HIGH HIGH,
   demoInput 1000 0 HIGH HIGH, demoInput 1001 0 HIGH HIGH]

/-! ## Reference definition of the time since last connected (spec 4.3) -/

/-- The time since the most recent connected call, for each call of a trace: `ref` is
the time of the most recent connected call so far (time 0 when there was none). -/
def specTimeSinceConnected : Nat → List Input → List Nat
  | _, [] => []
  | ref, inp :: rest =>
    let ref' := if inp.rawConnected then inp.millis % WORD else ref
    sub32 (inp.millis % WORD) ref' :: specTimeSinceConnected ref' rest

/-! ## Scenario data for the connection and the led -/

/-- Two disconnected calls right after `setup()`, at 0 ms and at 11 ms. -/
def demoUnpaired : List Input := [demoInput 0 0 HIGH HIGH, demoInput 11 0 HIGH HIGH]

/-- Calls at 0, 500, 700 and 900 ms: connected, connected, disconnected, disconnected. -/
def demoDrop : List Input :=
  [demoInput 0 1 HIGH HIGH, demoInput 500 1 HIGH HIGH, demoInput 700 0 HIGH HIGH,
   demoInput 900 0 HIGH HIGH]

/-! ## Observations on traces -/

/-- The pins read with `digitalRead`, in order. -/
def pinReadCalls : List Effect → List Nat
  | [] => []
  | Effect.digitalRead pin :: es => pin :: pinReadCalls es
  | _ :: es => pinReadCalls es

/-- A connected state whose three timestamps are 500 ms before the 32-bit clock wraps. -/
def demoNearWrap : State :=
  { demoConnected with
    lastButtonPressTime := WORD - 500
    lastConnectionBlinkToggleTime := WORD - 500
    lastConnectedTime := WORD - 500 }

/-- Whether an effect is a `keyboardReport` call. -/
def Effect.isReport : Effect → Bool
  | Effect.keyboardReport _ _ => true
  | _ => false

/-- The globals after successive calls of `loop()`, one per input. -/
def runState (cfg : Config) : State → List Input → State
  | s, [] => s
  | s, inp :: rest => runState cfg (loop cfg s inp).state rest

/-- The transport calls of a whole trace, in order. -/
def traceTransport (cfg : Config) (s : State) (inps : List Input) : List Effect :=
  transportCalls ((run cfg s inps).flatMap (fun o => o.effects))

/-! ## Scenario data for a reconnect -/

/-- A trace with a reconnect: connect at 0 ms, board button down at the sampling call of
1000 ms, connection lost at 1500 ms, re-established at 5000 ms, and the board button down
again at the sampling call of 6000 ms. -/
def demoReconnect : List Input :=
  [demoInput 0 1 HIGH HIGH, demoInput 1000 1 LOW HIGH, demoInput 1500 0 HIGH HIGH,
   demoInput 5000 1 HIGH HIGH, demoInput 6000 1 LOW HIGH]

/-! ## Rearms and led levels of a trace -/

/-- Whether the call rearmed the blink timestamp: the condition of line 259. -/
def Outcome.rearmed (o : Outcome) : Bool := decide (o.timeSinceLastBlink ≥ o.blinkInterval)

/-- The led state after each call of a trace. -/
def ledLevels (outs : List Outcome) : List Int :=
  outs.map (fun o => o.state.connectionBlinkState)

/-- Disconnected calls at 1001, 1005, 1011 and 1500 ms. -/
def demoAfterRearm : List Input :=
  [demoInput 1001 0 HIGH HIGH, demoInput 1005 0 HIGH HIGH, demoInput 1011 0 HIGH HIGH,
   demoInput 1500 0 HIGH HIGH]

/-! ## The blink cycle while connected, one call per millisecond -/

/-- The elapsed time since the toggle timestamp on the next call, one millisecond later,
while connected: 1 after a rearm, one more otherwise. -/
def nextElapsed (e : Nat) : Nat :=
  if e ≥ CONNECTED_BLINK_INTERVAL_MS then 1 else e + 1

/-- The number of calls that leave the led HIGH among `n` calls one millisecond apart
while connected, the first of which sees the elapsed time `e`. -/
def highCount (e : Nat) : Nat → Nat
  | 0 => 0
  | n + 1 => (if e ≤ CONNECTION_BLINK_ON_DURATION_MS then 1 else 0) + highCount (nextElapsed e) n

/-- Ten thousand connected calls, one per millisecond from time 0. -/
def demoTenSeconds : List Input :=
  (List.range 10000).map (fun k => demoInput k 1 HIGH HIGH)

/-! ## Lemmas on the parts of `loop()` -/

theorem transportCalls_append (a b : List Effect) :
    transportCalls (a ++ b) = transportCalls a ++ transportCalls b := by
  simp [transportCalls]

theorem transportCalls_reads (ps : List Nat) :
    transportCalls (ps.map Effect.digitalRead) = [] := by
  induction ps with
  | nil => rfl
  | cons p ps ih => simp [transportCalls, Effect.isTransport]

theorem trackConnection_transport (s : State) (t c : Nat) :
    transportCalls (trackConnection s t c).effects = [] := by
  unfold trackConnection
  simp only []
  split_ifs <;> simp [transportCalls, Effect.isTransport]

theorem trackConnection_lastPressed (s : State) (t c : Nat) :
    (trackConnection s t c).state.lastPressedButtonCount = s.lastPressedButtonCount := by
  unfold trackConnection
  simp only []
  split_ifs <;> rfl

theorem scheduleIndicator_transport (cfg : Config) (s : State) (t : Nat) (b : Bool) (d : Nat) :
    transportCalls (scheduleIndicator cfg s t b d).effects = [] := by
  unfold scheduleIndicator
  simp only []
  split_ifs <;> simp [transportCalls, Effect.isTransport]

theorem scheduleIndicator_lastPressed (cfg : Config) (s : State) (t : Nat) (b : Bool) (d : Nat) :
    (scheduleIndicator cfg s t b d).state.lastPressedButtonCount = s.lastPressedButtonCount := by
  unfold scheduleIndicator
  simp only []
  split_ifs <;> rfl

theorem reportButtons_transport (s : State) (t : Nat) (sc : Scan) :
    transportCalls (reportButtons s t sc).2 =
      if (sc.pressedButtonCount : Int) ≠ s.lastPressedButtonCount then [reportCall sc] else [] := by
  unfold reportButtons reportCall
  simp only []
  split_ifs <;> simp_all [transportCalls, Effect.isTransport]

theorem reportButtons_lastPressed (s : State) (t : Nat) (sc : Scan) :
    (reportButtons s t sc).1.lastPressedButtonCount = sc.pressedButtonCount := by
  unfold reportButtons
  simp only []
  split_ifs <;> simp_all

theorem loop_transport_some (cfg : Config) (s : State) (inp : Input) (sc : Scan)
    (h : (loop cfg s inp).sample = some sc) :
    transportCalls (loop cfg s inp).effects =
      if (sc.pressedButtonCount : Int) ≠ s.lastPressedButtonCount then [reportCall sc] else [] := by
  unfold loop at h ⊢
  simp only [] at h ⊢
  rw [h]
  simp only [transportCalls_append, trackConnection_transport, scheduleIndicator_transport,
    transportCalls_reads, reportButtons_transport, trackConnection_lastPressed, List.nil_append,
    List.append_nil]

theorem loop_transport_none (cfg : Config) (s : State) (inp : Input)
    (h : (loop cfg s inp).sample = none) :
    transportCalls (loop cfg s inp).effects = [] := by
  unfold loop at h ⊢
  simp only [] at h ⊢
  rw [h]
  simp only [transportCalls_append, trackConnection_transport, scheduleIndicator_transport,
    List.nil_append, List.append_nil]

theorem loop_lastPressed_some (cfg : Config) (s : State) (inp : Input) (sc : Scan)
    (h : (loop cfg s inp).sample = some sc) :
    (loop cfg s inp).state.lastPressedButtonCount = sc.pressedButtonCount := by
  unfold loop at h ⊢
  simp only [] at h ⊢
  rw [h]
  simp only [scheduleIndicator_lastPressed, reportButtons_lastPressed]

theorem loop_lastPressed_none (cfg : Config) (s : State) (inp : Input)
    (h : (loop cfg s inp).sample = none) :
    (loop cfg s inp).state.lastPressedButtonCount = s.lastPressedButtonCount := by
  unfold loop at h ⊢
  simp only [] at h ⊢
  rw [h]
  simp only [scheduleIndicator_lastPressed, trackConnection_lastPressed]

/-! ## C1, C2: the Report Dispatcher -/

theorem run_same_count_silent (cfg : Config) (c : Nat) :
    ∀ (rest : List Input) (s : State), s.lastPressedButtonCount = c →
      (∀ o ∈ run cfg s rest, ∀ sc, o.sample = some sc → sc.pressedButtonCount = c) →
      ∀ o ∈ run cfg s rest, transportCalls o.effects = [] := by
  intro rest
  induction rest with
  | nil => intro s _ _ o ho; simp [run] at ho
  | cons inp rest ih =>
    intro s hs hall o ho
    simp only [run, List.mem_cons] at ho hall
    have hhead : transportCalls (loop cfg s inp).effects = [] ∧
        (loop cfg s inp).state.lastPressedButtonCount = c := by
      cases hsm : (loop cfg s inp).sample with
      | none =>
        exact ⟨loop_transport_none cfg s inp hsm, by rw [loop_lastPressed_none cfg s inp hsm, hs]⟩
      | some sc =>
        have hc := hall _ (Or.inl rfl) sc hsm
        refine ⟨?_, by rw [loop_lastPressed_some cfg s inp sc hsm, hc]⟩
        rw [loop_transport_some cfg s inp sc hsm, hc, hs]
        simp
    rcases ho with rfl | ho
    · exact hhead.1
    · exact ih _ hhead.2 (fun o' ho' => hall o' (Or.inr ho')) o ho

/-- C1 (Report Dispatcher): on every call of `loop()` in which the sampler runs, a
transport call (`keyboardReport` or `keyRelease`) is emitted if and only if the sampled
`pressedButtonCount` differs from the stored `lastPressedButtonCount`, there is at most one
such call, and afterwards `lastPressedButtonCount` equals `pressedButtonCount`.  Consequently,
in any continuation in which every later sampling call samples the same count, no later
call emits a transport call: of N sampling calls with the same count only the first can. -/
theorem dispatcher_reports_iff_count_changed (cfg : Config) (s : State) (inp : Input)
    (sc : Scan) (h : (loop cfg s inp).sample = some sc) :
    (transportCalls (loop cfg s inp).effects ≠ [] ↔
        (sc.pressedButtonCount : Int) ≠ s.lastPressedButtonCount) ∧
      (loop cfg s inp).state.lastPressedButtonCount = sc.pressedButtonCount ∧
      (transportCalls (loop cfg s inp).effects).length ≤ 1 ∧
      ∀ rest : List Input,
        (∀ o ∈ run cfg (loop cfg s inp).state rest, ∀ sc', o.sample = some sc' →
          sc'.pressedButtonCount = sc.pressedButtonCount) →
        ∀ o ∈ run cfg (loop cfg s inp).state rest, transportCalls o.effects = [] := by
  have ht := loop_transport_some cfg s inp sc h
  have hl := loop_lastPressed_some cfg s inp sc h
  refine ⟨?_, hl, ?_, ?_⟩
  · rw [ht]; split_ifs with hc <;> simp [hc]
  · rw [ht]; split_ifs <;> simp
  · intro rest hall
    exact run_same_count_silent cfg sc.pressedButtonCount rest _ hl hall

/-- Witness for C1: connected, 1000 ms after the connection, both buttons down. -/
theorem dispatcher_reports_iff_count_changed_witness :
    (loop demoConfig demoConnected (demoInput 1000 1 LOW LOW)).sample =
        some (sampleButtons demoConfig (demoInput 1000 1 LOW LOW).digitalRead) ∧
      transportCalls (loop demoConfig demoConnected (demoInput 1000 1 LOW LOW)).effects ≠ [] ∧
      (loop demoConfig demoConnected (demoInput 1000 1 LOW LOW)).state.lastPressedButtonCount
        = 2 :=
  ⟨by decide,
   ((dispatcher_reports_iff_count_changed demoConfig demoConnected (demoInput 1000 1 LOW LOW)
      (sampleButtons demoConfig (demoInput 1000 1 LOW LOW).digitalRead) (by decide)).1).mpr
      (by decide),
   (dispatcher_reports_iff_count_changed demoConfig demoConnected (demoInput 1000 1 LOW LOW)
      (sampleButtons demoConfig (demoInput 1000 1 LOW LOW).digitalRead) (by decide)).2.1⟩

theorem loop_sample_eq (cfg : Config) (s : State) (inp : Input) (sc : Scan)
    (h : (loop cfg s inp).sample = some sc) : sc = sampleButtons cfg inp.digitalRead := by
  unfold loop at h
  simp only [] at h
  split_ifs at h
  exact (Option.some.inj h).symm

theorem scanFrom_keyCodes_length (cfg : Config) (rd : Nat → Int) :
    ∀ (n i : Nat) (sc : Scan), (scanFrom cfg rd n i sc).keyCodes.length = sc.keyCodes.length := by
  intro n
  induction n with
  | zero => intro i sc; rfl
  | succ n ih =>
    intro i sc
    simp only [scanFrom]
    split_ifs
    · rw [ih]
    · simp
    · rw [ih]; simp

theorem sampleButtons_keyCodes_length (cfg : Config) (rd : Nat → Int) :
    (sampleButtons cfg rd).keyCodes.length = 6 := by
  unfold sampleButtons
  rw [scanFrom_keyCodes_length]
  rfl

theorem loop_sampled_count (cfg : Config) (s : State) (inp : Input) (c : Nat)
    (h : (loop cfg s inp).sample.map Scan.pressedButtonCount = some c) :
    transportCalls (loop cfg s inp).effects =
        (if (c : Int) ≠ s.lastPressedButtonCount then
          [if c > 0 then Effect.keyboardReport 0 (sampleButtons cfg inp.digitalRead).keyCodes
           else Effect.keyRelease]
         else []) ∧
      (loop cfg s inp).state.lastPressedButtonCount = c := by
  obtain ⟨sc, hsc, hc⟩ := Option.map_eq_some'.mp h
  have he := loop_sample_eq cfg s inp sc hsc
  refine ⟨?_, by rw [loop_lastPressed_some cfg s inp sc hsc, hc]⟩
  rw [loop_transport_some cfg s inp sc hsc, reportCall, hc, ← he]

/-- C2 (kind of the emitted event): on a call of `loop()` in which the sampler runs and the
count changed, the only transport call is `keyboardReport` with modifier 0 and the whole
6-slot `keyCodes` buffer when `pressedButtonCount > 0`, and `keyRelease` when it is 0.
Scenario: from any state with `lastPressedButtonCount = 0`, five sampling calls whose
sampled counts are 0, 1, 1, 2, 0 emit, in order: nothing, a report of the buffer sampled on
the second call, nothing, a report of the buffer sampled on the fourth call, a release. -/
theorem dispatcher_event_kind (cfg : Config) :
    (∀ (s : State) (inp : Input) (sc : Scan), (loop cfg s inp).sample = some sc →
        (sc.pressedButtonCount : Int) ≠ s.lastPressedButtonCount →
        sc.keyCodes.length = 6 ∧
        transportCalls (loop cfg s inp).effects =
          [if sc.pressedButtonCount > 0 then Effect.keyboardReport 0 sc.keyCodes
           else Effect.keyRelease]) ∧
    (∀ (s : State) (i0 i1 i2 i3 i4 : Input), s.lastPressedButtonCount = 0 →
        (run cfg s [i0, i1, i2, i3, i4]).map (fun o => o.sample.map Scan.pressedButtonCount)
          = [some 0, some 1, some 1, some 2, some 0] →
        (run cfg s [i0, i1, i2, i3, i4]).map (fun o => transportCalls o.effects)
          = [[],
             [Effect.keyboardReport 0 (sampleButtons cfg i1.digitalRead).keyCodes],
             [],
             [Effect.keyboardReport 0 (sampleButtons cfg i3.digitalRead).keyCodes],
             [Effect.keyRelease]]) := by
  constructor
  · intro s inp sc h hc
    have he := loop_sample_eq cfg s inp sc h
    refine ⟨by rw [he]; exact sampleButtons_keyCodes_length cfg _, ?_⟩
    rw [loop_transport_some cfg s inp sc h, if_pos hc, reportCall]
  · intro s i0 i1 i2 i3 i4 hs hcounts
    simp only [run, List.map, List.cons.injEq, and_true] at hcounts ⊢
    obtain ⟨h0, h1, h2, h3, h4⟩ := hcounts
    obtain ⟨t0, l0⟩ := loop_sampled_count cfg _ _ _ h0
    obtain ⟨t1, l1⟩ := loop_sampled_count cfg _ _ _ h1
    obtain ⟨t2, l2⟩ := loop_sampled_count cfg _ _ _ h2
    obtain ⟨t3, l3⟩ := loop_sampled_count cfg _ _ _ h3
    obtain ⟨t4, _⟩ := loop_sampled_count cfg _ _ _ h4
    rw [l3] at t4
    rw [l2] at t3
    rw [l1] at t2
    rw [l0] at t1
    rw [hs] at t0
    refine ⟨by rw [t0]; simp, by rw [t1]; simp, by rw [t2]; simp, by rw [t3]; simp,
      by rw [t4]; simp⟩

/-- Witness for C2: from the state reached by connecting right after `setup()`, the five
inputs of `demoPresses` are sampling calls with counts 0, 1, 1, 2, 0 and emit exactly three
transport calls: a report of one code, a report of two codes, a release. -/
theorem dispatcher_event_kind_witness :
    demoConnected.lastPressedButtonCount = 0 ∧
      (run demoConfig demoConnected demoPresses).map
          (fun o => o.sample.map Scan.pressedButtonCount)
        = [some 0, some 1, some 1, some 2, some 0] ∧
      (run demoConfig demoConnected demoPresses).map (fun o => transportCalls o.effects)
        = [[],
           [Effect.keyboardReport 0 [HID_KEY_VOLUME_DOWN, 0, 0, 0, 0, 0]],
           [],
           [Effect.keyboardReport 0 [HID_KEY_VOLUME_DOWN, HID_KEY_VOLUME_DOWN, 0, 0, 0, 0]],
           [Effect.keyRelease]] ∧
      (transportCalls ((run demoConfig demoConnected demoPresses).flatMap
          (fun o => o.effects))).length = 3 :=
  ⟨by decide, by decide,
   ((dispatcher_event_kind demoConfig).2 demoConnected _ _ _ _ _ (by decide)
      (by decide)).trans (by decide),
   by decide⟩

/-! ## C3, C4: the Input Sampler -/

theorem scanFrom_inactive (cfg : Config) (rd : Nat → Int) (n i : Nat) (sc : Scan)
    (h : specIsActive cfg rd i = false) :
    scanFrom cfg rd (n + 1) i sc = scanFrom cfg rd n (i + 1) (sc.afterRead cfg i) := by
  have hd : decide (rd (cfg.BUTTON_PINS.getD i 0) = LOW) = false := h
  rw [scanFrom]
  simp only [hd, Bool.not_false, if_true]
  rfl

theorem scanFrom_active (cfg : Config) (rd : Nat → Int) (n i : Nat) (sc : Scan)
    (h : specIsActive cfg rd i = true) :
    scanFrom cfg rd (n + 1) i sc =
      if sc.pressedButtonCount + 1 = 6 then sc.afterStore cfg i
      else scanFrom cfg rd n (i + 1) (sc.afterStore cfg i) := by
  have hd : decide (rd (cfg.BUTTON_PINS.getD i 0) = LOW) = true := h
  rw [scanFrom]
  simp only [hd, Bool.not_true, Bool.false_eq_true, if_false]
  rfl

theorem scanFrom_count (cfg : Config) (rd : Nat → Int) :
    ∀ (n i : Nat) (sc : Scan), sc.pressedButtonCount < 6 →
      (scanFrom cfg rd n i sc).pressedButtonCount =
        min (sc.pressedButtonCount + ((List.range' i n).filter (specIsActive cfg rd)).length) 6 := by
  intro n
  induction n with
  | zero => intro i sc h; simp [scanFrom]; omega
  | succ n ih =>
    intro i sc h
    rw [List.range'_succ, List.filter_cons]
    cases ha : specIsActive cfg rd i with
    | false =>
      rw [scanFrom_inactive cfg rd n i sc ha, ih _ _ (by simpa [Scan.afterRead] using h)]
      simp [Scan.afterRead]
    | true =>
      rw [scanFrom_active cfg rd n i sc ha]
      simp only [if_true, List.length_cons]
      split_ifs with h6
      · simp only [Scan.afterStore]; omega
      · rw [ih _ _ (by simp only [Scan.afterStore]; omega)]
        simp only [Scan.afterStore]
        omega

theorem scanFrom_writes (cfg : Config) (rd : Nat → Int) :
    ∀ (n i : Nat) (sc : Scan), sc.pressedButtonCount < 6 →
      (scanFrom cfg rd n i sc).bufferWrites =
        sc.bufferWrites ++
          (List.enumFrom sc.pressedButtonCount
            (((List.range' i n).filter (specIsActive cfg rd)).take
              (6 - sc.pressedButtonCount))).map
            (fun p => ⟨p.2, p.1, cfg.BUTTON_MAPPING.getD p.2 0⟩) := by
  intro n
  induction n with
  | zero => intro i sc h; simp [scanFrom]
  | succ n ih =>
    intro i sc h
    rw [List.range'_succ, List.filter_cons]
    cases ha : specIsActive cfg rd i with
    | false =>
      rw [scanFrom_inactive cfg rd n i sc ha, ih _ _ (by simpa [Scan.afterRead] using h)]
      simp [Scan.afterRead]
    | true =>
      rw [scanFrom_active cfg rd n i sc ha]
      simp only [if_true]
      obtain ⟨m, hm⟩ : ∃ m, 6 - sc.pressedButtonCount = m + 1 := ⟨5 - sc.pressedButtonCount, by omega⟩
      rw [hm, List.take_succ_cons, List.enumFrom_cons, List.map_cons]
      split_ifs with h6
      · have : m = 0 := by omega
        subst this
        simp [Scan.afterStore]
      · rw [ih _ _ (by simp only [Scan.afterStore]; omega)]
        have : 6 - (sc.afterStore cfg i).pressedButtonCount = m := by
          simp only [Scan.afterStore]; omega
        rw [this]
        simp [Scan.afterStore]

theorem scanFrom_keyCodes (cfg : Config) (rd : Nat → Int) :
    ∀ (n i : Nat) (sc : Scan), sc.pressedButtonCount < 6 → sc.keyCodes.length = 6 →
      ∀ k : Nat, (scanFrom cfg rd n i sc).keyCodes[k]? =
        if sc.pressedButtonCount ≤ k ∧
            k < min (sc.pressedButtonCount +
              ((List.range' i n).filter (specIsActive cfg rd)).length) 6
        then (((List.range' i n).filter (specIsActive cfg rd)).map
            (fun j => cfg.BUTTON_MAPPING.getD j 0))[k - sc.pressedButtonCount]?
        else sc.keyCodes[k]? := by
  intro n
  induction n with
  | zero =>
    intro i sc h hl k
    simp only [scanFrom, List.range'_zero, List.filter_nil, List.length_nil, List.map_nil]
    rw [if_neg (by omega)]
  | succ n ih =>
    intro i sc h hl k
    rw [List.range'_succ, List.filter_cons]
    cases ha : specIsActive cfg rd i with
    | false =>
      rw [scanFrom_inactive cfg rd n i sc ha,
        ih _ _ (by simpa [Scan.afterRead] using h) (by simpa [Scan.afterRead] using hl)]
      simp [Scan.afterRead]
    | true =>
      rw [scanFrom_active cfg rd n i sc ha]
      simp only [if_true, List.length_cons, List.map_cons]
      have hset : ∀ j : Nat, (sc.afterStore cfg i).keyCodes[j]? =
          if sc.pressedButtonCount = j then some (cfg.BUTTON_MAPPING.getD i 0)
          else sc.keyCodes[j]? := by
        intro j
        simp only [Scan.afterStore, List.getElem?_set]
        split_ifs with h1 h2
        · rfl
        · omega
        · rfl
      split_ifs with h6 hk hk
      · have : k = sc.pressedButtonCount := by omega
        subst this
        simp [hset]
      · rw [hset, if_neg (by omega)]
      · rw [ih _ _ (by simp only [Scan.afterStore]; omega) (by simp [Scan.afterStore, hl]), hset]
        have hc : (sc.afterStore cfg i).pressedButtonCount = sc.pressedButtonCount + 1 := rfl
        rw [hc]
        by_cases hkc : k = sc.pressedButtonCount
        · subst hkc
          rw [if_neg (by omega)]
          simp
        · rw [if_pos (by omega)]
          obtain ⟨d, hd⟩ : ∃ d, k - sc.pressedButtonCount = d + 1 :=
            ⟨k - sc.pressedButtonCount - 1, by omega⟩
          have hd' : k - (sc.pressedButtonCount + 1) = d := by omega
          rw [hd, hd', List.getElem?_cons_succ]
      · rw [ih _ _ (by simp only [Scan.afterStore]; omega) (by simp [Scan.afterStore, hl]), hset]
        have hc : (sc.afterStore cfg i).pressedButtonCount = sc.pressedButtonCount + 1 := rfl
        rw [hc, if_neg (by omega), if_neg (by omega)]

theorem sampleButtons_count (cfg : Config) (rd : Nat → Int) :
    (sampleButtons cfg rd).pressedButtonCount = min (specActiveButtons cfg rd).length 6 := by
  unfold sampleButtons specActiveButtons
  rw [scanFrom_count cfg rd _ _ _ (by decide), List.range_eq_range']
  simp [Scan.start]

theorem sampleButtons_writes (cfg : Config) (rd : Nat → Int) :
    (sampleButtons cfg rd).bufferWrites =
      (List.enumFrom 0 ((specActiveButtons cfg rd).take 6)).map
        (fun p => ⟨p.2, p.1, cfg.BUTTON_MAPPING.getD p.2 0⟩) := by
  unfold sampleButtons specActiveButtons
  rw [scanFrom_writes cfg rd _ _ _ (by decide), List.range_eq_range']
  simp [Scan.start]

/-- C3 (Input Sampler equals its reference definition): for every button count and every
assignment of pin levels, with A the list of `BUTTON_MAPPING[i]` for the indices `i`, in
increasing order, whose pin reads LOW: `pressedButtonCount = min (length A) 6`,
`keyCodes[k] = A[k]` for every `k < pressedButtonCount`, and `keyCodes[k] = HID_KEY_NONE`
for every `k` with `pressedButtonCount ≤ k < 6`. -/
theorem sampler_matches_reference (cfg : Config) (rd : Nat → Int) :
    (sampleButtons cfg rd).pressedButtonCount = min (specActiveCodes cfg rd).length 6 ∧
      (∀ k : Nat, k < (sampleButtons cfg rd).pressedButtonCount →
        k < (specActiveCodes cfg rd).length ∧
        (sampleButtons cfg rd).keyCodes[k]? = (specActiveCodes cfg rd)[k]?) ∧
      (∀ k : Nat, (sampleButtons cfg rd).pressedButtonCount ≤ k → k < 6 →
        (sampleButtons cfg rd).keyCodes[k]? = some HID_KEY_NONE) := by
  have hc := sampleButtons_count cfg rd
  have hk : ∀ k : Nat, (sampleButtons cfg rd).keyCodes[k]? =
      if k < min (specActiveButtons cfg rd).length 6 then (specActiveCodes cfg rd)[k]?
      else Scan.start.keyCodes[k]? := by
    intro k
    unfold sampleButtons specActiveCodes specActiveButtons
    rw [scanFrom_keyCodes cfg rd _ _ _ (by decide) (by decide), List.range_eq_range']
    simp [Scan.start]
  have hl : (specActiveCodes cfg rd).length = (specActiveButtons cfg rd).length := by
    simp [specActiveCodes]
  refine ⟨by rw [hc, hl], ?_, ?_⟩
  · intro k hlt
    rw [hc] at hlt
    exact ⟨by omega, by rw [hk, if_pos hlt]⟩
  · intro k hge hlt
    rw [hc] at hge
    rw [hk, if_neg (by omega)]
    simp only [Scan.start, KEY_CODE_SLOTS]
    exact List.getElem?_replicate_of_lt hlt

/-- Witness for C3: eight buttons of which all but the second are down: slot 1 holds the
code of button 2. -/
theorem sampler_matches_reference_witness :
    1 < (sampleButtons demoEightButtons demoAllButSecond).pressedButtonCount ∧
      (sampleButtons demoEightButtons demoAllButSecond).keyCodes[1]?
        = some 13 :=
  ⟨by decide,
   (((sampler_matches_reference demoEightButtons demoAllButSecond).2.1 1
      (by decide)).2).trans (by decide)⟩

/-- C4 (truncation bound and in-bounds write): for every button count and every
assignment of pin levels, every write `keyCodes[keyCodeIndex]` of the sampling loop has
`keyCodeIndex < 6` and the resulting `pressedButtonCount` is at most 6; when 7 or more pins
are active the count is exactly 6, the six writes are those of the first six active buttons,
and the iteration of the 7th active button writes nothing. -/
theorem sampler_truncates_in_bounds (cfg : Config) (rd : Nat → Int) :
    (∀ w ∈ (sampleButtons cfg rd).bufferWrites, w.keyCodeIndex < 6) ∧
      (sampleButtons cfg rd).pressedButtonCount ≤ 6 ∧
      (7 ≤ (specActiveButtons cfg rd).length →
        (sampleButtons cfg rd).pressedButtonCount = 6 ∧
        (sampleButtons cfg rd).bufferWrites.map BufferWrite.button =
          (specActiveButtons cfg rd).take 6 ∧
        ∀ i : Nat, (specActiveButtons cfg rd)[6]? = some i →
          ∀ w ∈ (sampleButtons cfg rd).bufferWrites, w.button ≠ i) := by
  have hc := sampleButtons_count cfg rd
  have hw := sampleButtons_writes cfg rd
  have hbuttons : (sampleButtons cfg rd).bufferWrites.map BufferWrite.button =
      (specActiveButtons cfg rd).take 6 := by
    rw [hw, List.map_map]
    exact List.enumFrom_map_snd 0 _
  refine ⟨?_, by rw [hc]; omega, ?_⟩
  · intro w hwm
    rw [hw, List.mem_map] at hwm
    obtain ⟨p, hp, rfl⟩ := hwm
    have := List.mem_enumFrom hp
    have hlen : ((specActiveButtons cfg rd).take 6).length ≤ 6 := by
      rw [List.length_take]; omega
    simp only []
    omega
  · intro h7
    refine ⟨by rw [hc]; omega, hbuttons, ?_⟩
    intro i hi w hwm hwi
    have hnd : (specActiveButtons cfg rd).Nodup :=
      (List.nodup_range _).filter _
    have h1 : i ∈ (specActiveButtons cfg rd).take 6 := by
      rw [← hbuttons, ← hwi]
      exact List.mem_map_of_mem _ hwm
    have h2 : i ∈ (specActiveButtons cfg rd).drop 6 := by
      have : ((specActiveButtons cfg rd).drop 6)[0]? = some i := by
        rw [List.getElem?_drop]; exact hi
      exact List.getElem?_mem this
    exact List.disjoint_take_drop hnd (le_refl 6) h1 h2

/-- Witness for C4: eight buttons, all down: the count is 6 and the writes are those of
buttons 0 to 5. -/
theorem sampler_truncates_in_bounds_witness :
    7 ≤ (specActiveButtons demoEightButtons demoAllDown).length ∧
      (sampleButtons demoEightButtons demoAllDown).pressedButtonCount = 6 ∧
      (sampleButtons demoEightButtons demoAllDown).bufferWrites.map BufferWrite.button =
        [0, 1, 2, 3, 4, 5] :=
  ⟨by decide,
   ((sampler_truncates_in_bounds demoEightButtons demoAllDown).2.2 (by decide)).1,
   ((sampler_truncates_in_bounds demoEightButtons demoAllDown).2.2 (by decide)).2.1.trans
     (by decide)⟩

/-! ## C5: the Connection State Tracker -/

theorem trackConnection_flags (s : State) (t c : Nat) :
    (trackConnection s t c).isConnected = decide (c > 0) ∧
      (trackConnection s t c).connectionEstablished = (decide (c > 0) && !s.wasConnected) ∧
      (trackConnection s t c).connectionLost = (!decide (c > 0) && s.wasConnected) ∧
      (trackConnection s t c).state.wasConnected = decide (c > 0) := by
  unfold trackConnection
  simp only []
  split_ifs <;> simp

theorem reportButtons_wasConnected (s : State) (t : Nat) (sc : Scan) :
    (reportButtons s t sc).1.wasConnected = s.wasConnected := by
  unfold reportButtons
  simp only []
  split_ifs <;> rfl

theorem scheduleIndicator_wasConnected (cfg : Config) (s : State) (t : Nat) (b : Bool) (d : Nat) :
    (scheduleIndicator cfg s t b d).state.wasConnected = s.wasConnected := by
  unfold scheduleIndicator
  simp only []
  split_ifs <;> rfl

theorem loop_flags (cfg : Config) (s : State) (inp : Input) :
    (loop cfg s inp).isConnected = inp.rawConnected ∧
      (loop cfg s inp).connectionEstablished = (inp.rawConnected && !s.wasConnected) ∧
      (loop cfg s inp).connectionLost = (!inp.rawConnected && s.wasConnected) ∧
      (loop cfg s inp).state.wasConnected = inp.rawConnected := by
  obtain ⟨h1, h2, h3, h4⟩ := trackConnection_flags s (inp.millis % WORD) inp.connected
  refine ⟨h1, h2, h3, ?_⟩
  unfold loop
  simp only [scheduleIndicator_wasConnected]
  split
  · rw [reportButtons_wasConnected]; exact h4
  · exact h4

theorem run_mem (cfg : Config) :
    ∀ (inps : List Input) (s : State) (o : Outcome), o ∈ run cfg s inps →
      ∃ (s' : State) (inp : Input), o = loop cfg s' inp := by
  intro inps
  induction inps with
  | nil => intro s o ho; simp [run] at ho
  | cons inp rest ih =>
    intro s o ho
    simp only [run, List.mem_cons] at ho
    rcases ho with rfl | ho
    · exact ⟨s, inp, rfl⟩
    · exact ih _ o ho

theorem run_flags (cfg : Config) :
    ∀ (inps : List Input) (s : State),
      (run cfg s inps).map (fun o => (o.connectionEstablished, o.connectionLost)) =
        List.zipWith (fun prev cur => (cur && !prev, !cur && prev))
          (s.wasConnected :: inps.map Input.rawConnected) (inps.map Input.rawConnected) := by
  intro inps
  induction inps with
  | nil => intro s; rfl
  | cons inp rest ih =>
    intro s
    obtain ⟨_, h2, h3, h4⟩ := loop_flags cfg s inp
    simp only [run, List.map_cons, List.zipWith_cons_cons, ih, h2, h3, h4]

theorem run_edges_alternate (cfg : Config) :
    ∀ (inps : List Input) (s : State),
      List.Chain' (fun a b => a ≠ b) ((run cfg s inps).flatMap Outcome.edges) ∧
      ∀ e ∈ ((run cfg s inps).flatMap Outcome.edges).head?,
        e = if s.wasConnected then Edge.lost else Edge.established := by
  intro inps
  induction inps with
  | nil => intro s; simp [run]
  | cons inp rest ih =>
    intro s
    obtain ⟨_, h2, h3, h4⟩ := loop_flags cfg s inp
    obtain ⟨ihc, ihh⟩ := ih (loop cfg s inp).state
    rw [h4] at ihh
    simp only [run, List.flatMap_cons, Outcome.edges, h2, h3]
    cases hc : inp.rawConnected <;> cases hw : s.wasConnected <;>
      simp only [hc, hw, Bool.and_true, Bool.and_false, Bool.not_true, Bool.not_false,
        Bool.false_eq_true, if_false, if_true, List.nil_append, List.cons_append,
        List.head?_cons, Option.mem_def, Option.some.injEq] at ihh ⊢
    · exact ⟨ihc, ihh⟩
    · refine ⟨List.chain'_cons'.mpr ⟨?_, ihc⟩, fun e h => h.symm⟩
      intro y hy
      rw [ihh y hy]
      decide
    · refine ⟨List.chain'_cons'.mpr ⟨?_, ihc⟩, fun e h => h.symm⟩
      intro y hy
      rw [ihh y hy]
      decide
    · exact ⟨ihc, ihh⟩

/-- C5 (connection edges are edge-triggered and alternate): for every sequence of inputs
fed to successive calls of `loop()` from a state with `wasConnected = false`,
`connectionEstablished` on call i is "sample i is true and sample i-1 is false" (sample -1
taken as false), `connectionLost` is "sample i is false and sample i-1 is true", the two
are never both true on one call, and in the resulting sequence of events no two
consecutive events are equal: established and lost alternate. -/
theorem connection_edges_alternate (cfg : Config) (s : State) (inps : List Input)
    (h : s.wasConnected = false) :
    (run cfg s inps).map (fun o => (o.connectionEstablished, o.connectionLost)) =
        List.zipWith (fun prev cur => (cur && !prev, !cur && prev))
          (false :: inps.map Input.rawConnected) (inps.map Input.rawConnected) ∧
      (∀ o ∈ run cfg s inps, ¬ (o.connectionEstablished = true ∧ o.connectionLost = true)) ∧
      List.Chain' (fun a b => a ≠ b) ((run cfg s inps).flatMap Outcome.edges) := by
  have hf := run_flags cfg inps s
  rw [h] at hf
  refine ⟨hf, ?_, (run_edges_alternate cfg inps s).1⟩
  intro o ho hboth
  obtain ⟨s', inp, rfl⟩ := run_mem cfg inps s o ho
  obtain ⟨_, h2, h3, _⟩ := loop_flags cfg s' inp
  rw [h2] at hboth
  rw [h3] at hboth
  revert hboth
  cases inp.rawConnected <;> cases s'.wasConnected <;> simp

/-- Witness for C5: samples true, true, false, false, true from the state after `setup()`
give the events established, lost, established. -/
theorem connection_edges_alternate_witness :
    (setup 0).wasConnected = false ∧
      (run demoConfig (setup 0) demoConnections).map
          (fun o => (o.connectionEstablished, o.connectionLost)) =
        [(true, false), (false, false), (false, true), (false, false), (true, false)] ∧
      (run demoConfig (setup 0) demoConnections).flatMap Outcome.edges =
        [Edge.established, Edge.lost, Edge.established] :=
  ⟨rfl,
   (connection_edges_alternate demoConfig (setup 0) demoConnections rfl).1.trans (by decide),
   by decide⟩

/-! ## The led part of loop() -/

theorem pinWrites_append (a b : List Effect) :
    pinWrites (a ++ b) = pinWrites a ++ pinWrites b := by
  induction a with
  | nil => rfl
  | cons e a ih => cases e <;> simp [pinWrites, ih]

theorem pinWrites_reads (ps : List Nat) : pinWrites (ps.map Effect.digitalRead) = [] := by
  induction ps with
  | nil => rfl
  | cons p ps ih => simpa [pinWrites] using ih

theorem trackConnection_led (s : State) (t c : Nat) :
    (trackConnection s t c).state.lastConnectionBlinkToggleTime =
        s.lastConnectionBlinkToggleTime ∧
      (trackConnection s t c).state.connectionBlinkState = s.connectionBlinkState ∧
      pinWrites (trackConnection s t c).effects = [] := by
  unfold trackConnection
  simp only []
  split_ifs <;> exact ⟨rfl, rfl, rfl⟩

theorem reportButtons_led (s : State) (t : Nat) (sc : Scan) :
    (reportButtons s t sc).1.lastConnectionBlinkToggleTime = s.lastConnectionBlinkToggleTime ∧
      (reportButtons s t sc).1.connectionBlinkState = s.connectionBlinkState ∧
      pinWrites (reportButtons s t sc).2 = [] := by
  unfold reportButtons
  simp only []
  split_ifs <;> exact ⟨rfl, rfl, rfl⟩

theorem scheduleIndicator_locals (cfg : Config) (s : State) (t : Nat) (b : Bool) (d : Nat) :
    (scheduleIndicator cfg s t b d).blinkInterval = blinkIntervalFor b ∧
      (scheduleIndicator cfg s t b d).timeSinceLastBlink =
        sub32 t s.lastConnectionBlinkToggleTime ∧
      (scheduleIndicator cfg s t b d).targetConnectionLedState =
        targetLevelFor (sub32 t s.lastConnectionBlinkToggleTime) := by
  unfold scheduleIndicator blinkIntervalFor targetLevelFor
  simp only []
  split_ifs <;> exact ⟨rfl, rfl, rfl⟩

theorem scheduleIndicator_state (cfg : Config) (s : State) (t : Nat) (b : Bool) (d : Nat) :
    (scheduleIndicator cfg s t b d).state.connectionBlinkState =
        targetLevelFor (sub32 t s.lastConnectionBlinkToggleTime) ∧
      (scheduleIndicator cfg s t b d).state.lastConnectionBlinkToggleTime =
        (if sub32 t s.lastConnectionBlinkToggleTime ≥ blinkIntervalFor b then t
         else s.lastConnectionBlinkToggleTime) := by
  unfold scheduleIndicator blinkIntervalFor targetLevelFor
  simp only []
  split_ifs <;> simp_all

theorem scheduleIndicator_writes (cfg : Config) (s : State) (t : Nat) (b : Bool) (d : Nat) :
    pinWrites (scheduleIndicator cfg s t b d).effects =
      (if targetLevelFor (sub32 t s.lastConnectionBlinkToggleTime) ≠ s.connectionBlinkState
       then [(cfg.CONNECTION_LED_PIN, targetLevelFor (sub32 t s.lastConnectionBlinkToggleTime))]
       else []) := by
  unfold scheduleIndicator targetLevelFor
  simp only []
  cases b <;> split_ifs <;> simp_all [pinWrites]

/-- The led part of `loop()` sees the toggle timestamp and the led state of the start of
the call: the parts before it leave both alone and write no pin. -/
theorem loop_led (cfg : Config) (s : State) (inp : Input) :
    ∃ s' : State,
      s'.lastConnectionBlinkToggleTime = s.lastConnectionBlinkToggleTime ∧
      s'.connectionBlinkState = s.connectionBlinkState ∧
      (loop cfg s inp).state =
        (scheduleIndicator cfg s' (inp.millis % WORD) inp.rawConnected
          (loop cfg s inp).timeSinceLastConnected).state ∧
      pinWrites (loop cfg s inp).effects =
        pinWrites (scheduleIndicator cfg s' (inp.millis % WORD) inp.rawConnected
          (loop cfg s inp).timeSinceLastConnected).effects ∧
      (loop cfg s inp).blinkInterval = blinkIntervalFor inp.rawConnected ∧
      (loop cfg s inp).timeSinceLastBlink =
        sub32 (inp.millis % WORD) s.lastConnectionBlinkToggleTime ∧
      (loop cfg s inp).targetConnectionLedState =
        targetLevelFor (sub32 (inp.millis % WORD) s.lastConnectionBlinkToggleTime) := by
  obtain ⟨t1, t2, t3⟩ := trackConnection_led s (inp.millis % WORD) inp.connected
  have hconn : (trackConnection s (inp.millis % WORD) inp.connected).isConnected
      = inp.rawConnected := (trackConnection_flags s _ _).1
  unfold loop
  simp only [hconn]
  split
  · next sc _ =>
    obtain ⟨r1, r2, r3⟩ := reportButtons_led
      (trackConnection s (inp.millis % WORD) inp.connected).state (inp.millis % WORD) sc
    refine ⟨_, r1.trans t1, r2.trans t2, rfl, ?_, ?_⟩
    · simp only [pinWrites_append, t3, r3, pinWrites_reads, List.nil_append]
    · have := scheduleIndicator_locals cfg
        (reportButtons (trackConnection s (inp.millis % WORD) inp.connected).state
          (inp.millis % WORD) sc).1 (inp.millis % WORD) inp.rawConnected
        (sub32 (inp.millis % WORD)
          (trackConnection s (inp.millis % WORD) inp.connected).state.lastConnectedTime)
      rw [r1, t1] at this
      exact this
  · refine ⟨_, t1, t2, rfl, ?_, ?_⟩
    · simp only [pinWrites_append, t3, List.nil_append, pinWrites, List.append_nil]
    · have := scheduleIndicator_locals cfg
        (trackConnection s (inp.millis % WORD) inp.connected).state
        (inp.millis % WORD) inp.rawConnected
        (sub32 (inp.millis % WORD)
          (trackConnection s (inp.millis % WORD) inp.connected).state.lastConnectedTime)
      rw [t1] at this
      exact this

/-! ## C7: the indicator level -/

/-- C7 (indicator level): for every state and every call of `loop()`, with
`timeSinceLastBlink = currentTime - lastConnectionBlinkToggleTime` computed from the toggle
timestamp held at the start of the call, the led state after the call is HIGH iff
`timeSinceLastBlink ≤ CONNECTION_BLINK_ON_DURATION_MS` (10) and LOW iff it is greater, and
a pin write made in the call carries that level: no call ends with the indicator on when
more than 10 ms have elapsed since the toggle timestamp. -/
theorem indicator_level (cfg : Config) (s : State) (inp : Input) :
    (loop cfg s inp).timeSinceLastBlink =
        sub32 (inp.millis % WORD) s.lastConnectionBlinkToggleTime ∧
      ((loop cfg s inp).state.connectionBlinkState = HIGH ↔
        (loop cfg s inp).timeSinceLastBlink ≤ CONNECTION_BLINK_ON_DURATION_MS) ∧
      ((loop cfg s inp).state.connectionBlinkState = LOW ↔
        CONNECTION_BLINK_ON_DURATION_MS < (loop cfg s inp).timeSinceLastBlink) ∧
      ∀ w ∈ pinWrites (loop cfg s inp).effects,
        w = (cfg.CONNECTION_LED_PIN, (loop cfg s inp).state.connectionBlinkState) := by
  obtain ⟨s', h1, h2, hst, hw, _, htime, _⟩ := loop_led cfg s inp
  have hs := (scheduleIndicator_state cfg s' (inp.millis % WORD) inp.rawConnected
    (loop cfg s inp).timeSinceLastConnected).1
  have hwr := scheduleIndicator_writes cfg s' (inp.millis % WORD) inp.rawConnected
    (loop cfg s inp).timeSinceLastConnected
  rw [← hst, h1, ← htime] at hs
  rw [← hw, h1, ← htime, ← hs] at hwr
  refine ⟨htime, ?_, ?_, ?_⟩
  · rw [hs, targetLevelFor]
    split_ifs with h <;> simp [h, HIGH, LOW]
  · rw [hs, targetLevelFor]
    split_ifs with h
    · simp [HIGH, LOW]; omega
    · simp; omega
  · intro w hwm
    rw [hwr] at hwm
    split_ifs at hwm
    · simpa using hwm
    · simp at hwm

/-! ## C9, C10: elided writes and the rearm rule -/

/-- Witness for C7: 5 ms after the toggle timestamp the led is HIGH after the call. -/
theorem indicator_level_witness :
    (loop demoConfig (setup 0) (demoInput 5 0 HIGH HIGH)).timeSinceLastBlink = 5 ∧
      (loop demoConfig (setup 0) (demoInput 5 0 HIGH HIGH)).state.connectionBlinkState = HIGH :=
  ⟨(indicator_level demoConfig (setup 0) (demoInput 5 0 HIGH HIGH)).1.trans (by decide),
   ((indicator_level demoConfig (setup 0) (demoInput 5 0 HIGH HIGH)).2.1).mpr (by decide)⟩

theorem loop_pinWrites (cfg : Config) (s : State) (inp : Input) :
    pinWrites (loop cfg s inp).effects =
        (if (loop cfg s inp).targetConnectionLedState ≠ s.connectionBlinkState then
          [(cfg.CONNECTION_LED_PIN, (loop cfg s inp).targetConnectionLedState)]
         else []) ∧
      (loop cfg s inp).state.connectionBlinkState = (loop cfg s inp).targetConnectionLedState := by
  obtain ⟨s', h1, h2, hst, hw, _, _, htarget⟩ := loop_led cfg s inp
  have hs := (scheduleIndicator_state cfg s' (inp.millis % WORD) inp.rawConnected
    (loop cfg s inp).timeSinceLastConnected).1
  have hwr := scheduleIndicator_writes cfg s' (inp.millis % WORD) inp.rawConnected
    (loop cfg s inp).timeSinceLastConnected
  rw [← hst, h1, ← htarget] at hs
  rw [← hw, h1, ← htarget, h2] at hwr
  exact ⟨hwr, hs⟩

theorem run_pinWrites_alternate (cfg : Config) :
    ∀ (inps : List Input) (s : State),
      List.Chain' (fun a b : Nat × Int => a.2 ≠ b.2)
        (pinWrites ((run cfg s inps).flatMap (fun o => o.effects))) ∧
      ∀ w ∈ (pinWrites ((run cfg s inps).flatMap (fun o => o.effects))).head?,
        w.2 ≠ s.connectionBlinkState := by
  intro inps
  induction inps with
  | nil => intro s; simp [run, pinWrites]
  | cons inp rest ih =>
    intro s
    obtain ⟨hw, hs⟩ := loop_pinWrites cfg s inp
    obtain ⟨ihc, ihh⟩ := ih (loop cfg s inp).state
    rw [hs] at ihh
    simp only [run, List.flatMap_cons, pinWrites_append, hw]
    split_ifs with hne
    · simp only [List.singleton_append, List.head?_cons, Option.mem_def, Option.some.injEq]
      refine ⟨List.chain'_cons'.mpr ⟨?_, ihc⟩, ?_⟩
      · intro y hy
        exact fun h => ihh y hy h.symm
      · intro w hw'
        rw [← hw']
        exact hne
    · simp only [List.nil_append]
      have heq : (loop cfg s inp).targetConnectionLedState = s.connectionBlinkState := by
        by_contra h
        exact hne h
      rw [heq] at ihh
      exact ⟨ihc, ihh⟩

/-- C9 (elided pin writes): for every state and every call of `loop()`, `digitalWrite` is
called iff the desired level differs from `connectionBlinkState` at the start of the call,
it is called once, on `CONNECTION_LED_PIN`, with the desired level, and
`connectionBlinkState` changes only together with such a write (it becomes the desired
level, which is its old value when nothing is written); hence in any trace no two
consecutive pin writes carry the same level. -/
theorem pin_writes_elided (cfg : Config) (s : State) (inp : Input) :
    pinWrites (loop cfg s inp).effects =
        (if (loop cfg s inp).targetConnectionLedState ≠ s.connectionBlinkState then
          [(cfg.CONNECTION_LED_PIN, (loop cfg s inp).targetConnectionLedState)]
         else []) ∧
      (loop cfg s inp).state.connectionBlinkState =
        (if (loop cfg s inp).targetConnectionLedState ≠ s.connectionBlinkState then
          (loop cfg s inp).targetConnectionLedState
         else s.connectionBlinkState) ∧
      ∀ inps : List Input,
        List.Chain' (fun a b : Nat × Int => a.2 ≠ b.2)
          (pinWrites ((run cfg s inps).flatMap (fun o => o.effects))) := by
  obtain ⟨hw, hs⟩ := loop_pinWrites cfg s inp
  refine ⟨hw, ?_, fun inps => (run_pinWrites_alternate cfg inps s).1⟩
  rw [hs]
  split_ifs with hne
  · rfl
  · by_contra h
    exact hne h

/-- Witness for C9: from the state after `setup()`, the calls of `demoBlink` write
HIGH, LOW, HIGH to the led pin. -/
theorem pin_writes_elided_witness :
    pinWrites (loop demoConfig (setup 0) (demoInput 0 0 HIGH HIGH)).effects = [(4, HIGH)] ∧
      pinWrites ((run demoConfig (setup 0) demoBlink).flatMap (fun o => o.effects)) =
        [(4, HIGH), (4, LOW), (4, HIGH)] :=
  ⟨(pin_writes_elided demoConfig (setup 0) (demoInput 0 0 HIGH HIGH)).1.trans (by decide),
   by decide⟩

/-- C10 (blink rearm rule): for every state and every call of `loop()`, `blinkInterval`
is `CONNECTED_BLINK_INTERVAL_MS` (10000) when connected on this call and
`CONNECTING_BLINK_INTERVAL_MS` (1000) otherwise, and `lastConnectionBlinkToggleTime` after
the call is `currentTime` if `currentTime - lastConnectionBlinkToggleTime ≥ blinkInterval`
and is unchanged otherwise. -/
theorem blink_rearm_rule (cfg : Config) (s : State) (inp : Input) :
    (loop cfg s inp).isConnected = decide (inp.connected > 0) ∧
      (loop cfg s inp).currentTime = inp.millis % WORD ∧
      (loop cfg s inp).blinkInterval =
        (if (loop cfg s inp).isConnected then CONNECTED_BLINK_INTERVAL_MS
         else CONNECTING_BLINK_INTERVAL_MS) ∧
      (loop cfg s inp).state.lastConnectionBlinkToggleTime =
        (if sub32 (loop cfg s inp).currentTime s.lastConnectionBlinkToggleTime ≥
            (loop cfg s inp).blinkInterval
         then (loop cfg s inp).currentTime
         else s.lastConnectionBlinkToggleTime) := by
  obtain ⟨s', h1, _, hst, _, hint, _, _⟩ := loop_led cfg s inp
  have hs := (scheduleIndicator_state cfg s' (inp.millis % WORD) inp.rawConnected
    (loop cfg s inp).timeSinceLastConnected).2
  have hc : (loop cfg s inp).isConnected = inp.rawConnected := (loop_flags cfg s inp).1
  have ht : (loop cfg s inp).currentTime = inp.millis % WORD := rfl
  rw [← hst, h1, ← hint] at hs
  refine ⟨hc, ht, ?_, ?_⟩
  · rw [hint, hc]; rfl
  · rw [ht]; exact hs

/-- Witness for C10: disconnected, 1000 ms after the toggle timestamp, the timestamp is
rearmed to the current time. -/
theorem blink_rearm_rule_witness :
    (loop demoConfig (setup 0) (demoInput 1000 0 HIGH HIGH)).blinkInterval = 1000 ∧
      (loop demoConfig (setup 0) (demoInput 1000 0 HIGH HIGH)).state.lastConnectionBlinkToggleTime
        = 1000 :=
  ⟨(blink_rearm_rule demoConfig (setup 0) (demoInput 1000 0 HIGH HIGH)).2.2.1.trans (by decide),
   (blink_rearm_rule demoConfig (setup 0) (demoInput 1000 0 HIGH HIGH)).2.2.2.trans (by decide)⟩

/-! ## C8, C6: idempotence of the led part and the give-up duration -/

/-- C8 as stated fails: from the power-on state, disconnected, at time 1000 ms the first
call of the led part rearms the toggle timestamp and writes nothing, and a second call
with the same time and status writes HIGH to the led pin. -/
theorem indicator_second_call_writes :
    ¬ (∀ (cfg : Config) (s : State) (t : Nat) (b : Bool) (d : Nat),
        pinWrites (scheduleIndicator cfg (scheduleIndicator cfg s t b d).state t b d).effects
          = []) := by
  intro h
  have h1 := h demoConfig powerOn 1000 false 1000
  revert h1
  decide

/-- C8 amended (indicator idempotence): for every state and every input, a second call of
the led part with the same current time and connection status writes no pin when the first
call did not rearm the toggle timestamp (`timeSinceLastBlink < blinkInterval`); when the
first call rearmed it, the second call writes HIGH to the led pin, once. -/
theorem indicator_idempotent_unless_rearmed (cfg : Config) (s : State) (t : Nat) (b : Bool)
    (d : Nat) :
    pinWrites (scheduleIndicator cfg (scheduleIndicator cfg s t b d).state t b d).effects =
      (if sub32 t s.lastConnectionBlinkToggleTime < blinkIntervalFor b then []
       else [(cfg.CONNECTION_LED_PIN, HIGH)]) := by
  obtain ⟨hb, ht⟩ := scheduleIndicator_state cfg s t b d
  rw [scheduleIndicator_writes, hb]
  by_cases hlt : sub32 t s.lastConnectionBlinkToggleTime < blinkIntervalFor b
  · rw [if_neg (Nat.not_le.mpr hlt)] at ht
    rw [ht, if_pos hlt, if_neg (fun h => h rfl)]
  · rw [if_pos (Nat.not_lt.mp hlt)] at ht
    have hge : 1000 ≤ sub32 t s.lastConnectionBlinkToggleTime := by
      have : 1000 ≤ blinkIntervalFor b := by
        unfold blinkIntervalFor; split_ifs <;> decide
      omega
    have h0 : sub32 t t = 0 := by
      unfold sub32 WORD
      have : t % 2 ^ 32 < 2 ^ 32 := Nat.mod_lt _ (by decide)
      omega
    have hlow : targetLevelFor (sub32 t s.lastConnectionBlinkToggleTime) = LOW := by
      unfold targetLevelFor CONNECTION_BLINK_ON_DURATION_MS
      rw [if_neg (by omega)]
    rw [ht, if_neg hlt, h0, hlow]
    rfl

/-- C6 at the failing input: after `setup()` at time 0 and no connection ever, the call of
`loop()` at 30001 ms computes `timeSinceLastConnected = 30001`, above
`CONNECTION_GIVE_UP_DURATION_MS`, and does nothing but rearm the blink timestamp; the call
at 30002 ms goes on as before, printing the connecting line and switching the led on. -/
theorem give_up_duration_not_acted_on :
    (loop demoConfig (setup 0) (demoInput 30001 0 HIGH HIGH)).timeSinceLastConnected = 30001 ∧
      (loop demoConfig (setup 0) (demoInput 30001 0 HIGH HIGH)).effects = [] ∧
      (loop demoConfig (setup 0) (demoInput 30001 0 HIGH HIGH)).state =
        { setup 0 with lastConnectionBlinkToggleTime := 30001 } ∧
      (loop demoConfig (loop demoConfig (setup 0) (demoInput 30001 0 HIGH HIGH)).state
          (demoInput 30002 0 HIGH HIGH)).effects =
        [Effect.serial (SerialMsg.connecting 30002 CONNECTION_GIVE_UP_DURATION_MS),
         Effect.digitalWrite 4 HIGH] := by
  decide

/-! ## Times and frame of one call of loop() -/

theorem trackConnection_fields (s : State) (t c : Nat) :
    (trackConnection s t c).state.lastButtonPressTime =
        (if decide (c > 0) && !s.wasConnected then t else s.lastButtonPressTime) ∧
      (trackConnection s t c).state.lastConnectedTime =
        (if decide (c > 0) then t else s.lastConnectedTime) ∧
      (trackConnection s t c).state.haveReportedBattery =
        (if !decide (c > 0) && s.wasConnected then false else s.haveReportedBattery) := by
  unfold trackConnection
  simp only []
  by_cases hc : c > 0 <;> cases hw : s.wasConnected <;> simp [hc, hw]

theorem reportButtons_fields (s : State) (t : Nat) (sc : Scan) :
    (reportButtons s t sc).1.lastButtonPressTime =
        (if sc.pressedButtonCount > 0 then t else s.lastButtonPressTime) ∧
      (reportButtons s t sc).1.lastConnectedTime = s.lastConnectedTime ∧
      (reportButtons s t sc).1.haveReportedBattery = s.haveReportedBattery := by
  unfold reportButtons
  simp only []
  split_ifs <;> exact ⟨rfl, rfl, rfl⟩

theorem scheduleIndicator_fields (cfg : Config) (s : State) (t : Nat) (b : Bool) (d : Nat) :
    (scheduleIndicator cfg s t b d).state.lastButtonPressTime = s.lastButtonPressTime ∧
      (scheduleIndicator cfg s t b d).state.lastConnectedTime = s.lastConnectedTime ∧
      (scheduleIndicator cfg s t b d).state.haveReportedBattery = s.haveReportedBattery := by
  unfold scheduleIndicator
  simp only []
  split_ifs <;> exact ⟨rfl, rfl, rfl⟩

/-- The locals of `loop()` that measure time, and the sampling gate, in terms of the
globals at the start of the call. -/
theorem loop_times (cfg : Config) (s : State) (inp : Input) :
    (loop cfg s inp).currentTime = inp.millis % WORD ∧
      (loop cfg s inp).timeSinceLastButtonPress =
        sub32 (inp.millis % WORD)
          (if inp.rawConnected && !s.wasConnected then inp.millis % WORD
           else s.lastButtonPressTime) ∧
      (loop cfg s inp).timeSinceLastConnected =
        sub32 (inp.millis % WORD)
          (if inp.rawConnected then inp.millis % WORD else s.lastConnectedTime) ∧
      (loop cfg s inp).sample =
        (if inp.rawConnected &&
            decide ((loop cfg s inp).timeSinceLastButtonPress ≥ REPORT_BUTTONS_CHANGED_INTERVAL_MS)
         then some (sampleButtons cfg inp.digitalRead) else none) := by
  obtain ⟨f1, f2, _⟩ := trackConnection_fields s (inp.millis % WORD) inp.connected
  have hconn : (trackConnection s (inp.millis % WORD) inp.connected).isConnected
      = inp.rawConnected := (trackConnection_flags s _ _).1
  refine ⟨rfl, ?_, ?_, ?_⟩
  · show sub32 _ (trackConnection s (inp.millis % WORD) inp.connected).state.lastButtonPressTime = _
    rw [f1]; rfl
  · show sub32 _ (trackConnection s (inp.millis % WORD) inp.connected).state.lastConnectedTime = _
    rw [f2]; rfl
  · unfold loop
    simp only [hconn]

/-- The globals `lastButtonPressTime`, `lastConnectedTime` and `haveReportedBattery` after
one call of `loop()`. -/
theorem loop_fields (cfg : Config) (s : State) (inp : Input) :
    (loop cfg s inp).state.lastButtonPressTime =
        (match (loop cfg s inp).sample with
         | some sc =>
           if sc.pressedButtonCount > 0 then inp.millis % WORD
           else if inp.rawConnected && !s.wasConnected then inp.millis % WORD
           else s.lastButtonPressTime
         | none =>
           if inp.rawConnected && !s.wasConnected then inp.millis % WORD
           else s.lastButtonPressTime) ∧
      (loop cfg s inp).state.lastConnectedTime =
        (if inp.rawConnected then inp.millis % WORD else s.lastConnectedTime) ∧
      (loop cfg s inp).state.haveReportedBattery =
        (if !inp.rawConnected && s.wasConnected then false else s.haveReportedBattery) := by
  obtain ⟨f1, f2, f3⟩ := trackConnection_fields s (inp.millis % WORD) inp.connected
  unfold loop
  simp only []
  split
  · refine ⟨?_, ?_, ?_⟩
    · rw [(scheduleIndicator_fields cfg _ _ _ _).1, (reportButtons_fields _ _ _).1, f1]; rfl
    · rw [(scheduleIndicator_fields cfg _ _ _ _).2.1, (reportButtons_fields _ _ _).2.1, f2]; rfl
    · rw [(scheduleIndicator_fields cfg _ _ _ _).2.2, (reportButtons_fields _ _ _).2.2, f3]; rfl
  · refine ⟨?_, ?_, ?_⟩
    · rw [(scheduleIndicator_fields cfg _ _ _ _).1, f1]; rfl
    · rw [(scheduleIndicator_fields cfg _ _ _ _).2.1, f2]; rfl
    · rw [(scheduleIndicator_fields cfg _ _ _ _).2.2, f3]; rfl

theorem sub32_self (t : Nat) : sub32 t t = 0 := by
  unfold sub32 WORD
  have : t % 2 ^ 32 < 2 ^ 32 := Nat.mod_lt _ (by decide)
  omega

theorem sub32_add (t0 d : Nat) (hd : d < WORD) : sub32 ((t0 + d) % WORD) t0 = d := by
  unfold sub32
  unfold WORD at *
  omega

/-! ## C11, C18, C19: indication while unpaired, connection side effects -/

/-- C11 at the failing input: after `setup()` at time 0 with no host connected, the call
of `loop()` at 0 ms switches the led on and the call at 11 ms switches it off again, so the
led is LOW after a call on which no host is connected. -/
theorem unpaired_led_goes_low :
    (run demoConfig (setup 0) demoUnpaired).map
        (fun o => (o.isConnected, o.state.connectionBlinkState)) =
      [(false, HIGH), (false, LOW)] ∧
    pinWrites ((run demoConfig (setup 0) demoUnpaired).flatMap (fun o => o.effects)) =
      [(4, HIGH), (4, LOW)] := by
  decide

/-- C18 (connection-established side effect): on every call where the raw status flips
from false to true, `lastButtonPressTime` is set to `currentTime` before the sampling gate
is evaluated, so the elapsed time is 0, the sampler does not run, no transport call is
emitted, and `lastButtonPressTime` is `currentTime` after the call; on a call where the
status flips from true to false, `haveReportedBattery` is false after the call and
`lastButtonPressTime` is unchanged. -/
theorem connection_edge_side_effects (cfg : Config) (s : State) (inp : Input) :
    (inp.rawConnected = true → s.wasConnected = false →
        (loop cfg s inp).connectionEstablished = true ∧
        (loop cfg s inp).timeSinceLastButtonPress = 0 ∧
        (loop cfg s inp).sample = none ∧
        transportCalls (loop cfg s inp).effects = [] ∧
        (loop cfg s inp).state.lastButtonPressTime = inp.millis % WORD) ∧
    (inp.rawConnected = false → s.wasConnected = true →
        (loop cfg s inp).connectionLost = true ∧
        (loop cfg s inp).state.haveReportedBattery = false ∧
        (loop cfg s inp).state.lastButtonPressTime = s.lastButtonPressTime) := by
  obtain ⟨_, hb, _, hsm⟩ := loop_times cfg s inp
  obtain ⟨f1, _, f3⟩ := loop_fields cfg s inp
  obtain ⟨_, he, hl, _⟩ := loop_flags cfg s inp
  constructor
  · intro hc hw
    have hb0 : (loop cfg s inp).timeSinceLastButtonPress = 0 := by
      rw [hb, hc, hw]; exact sub32_self _
    have hnone : (loop cfg s inp).sample = none := by
      rw [hsm, hb0]; simp [REPORT_BUTTONS_CHANGED_INTERVAL_MS]
    refine ⟨by rw [he, hc, hw]; rfl, hb0, hnone, loop_transport_none cfg s inp hnone, ?_⟩
    rw [f1, hnone, hc, hw]; rfl
  · intro hc hw
    have hnone : (loop cfg s inp).sample = none := by
      rw [hsm, hc]; rfl
    refine ⟨by rw [hl, hc, hw]; rfl, by rw [f3, hc, hw]; rfl, ?_⟩
    rw [f1, hnone, hc]; rfl

/-- Witness for C18: a first connected call at 5000 ms after `setup()`, and a
disconnected call at 6000 ms after it. -/
theorem connection_edge_side_effects_witness :
    (loop demoConfig (setup 0) (demoInput 5000 1 LOW LOW)).sample = none ∧
      (loop demoConfig (setup 0) (demoInput 5000 1 LOW LOW)).state.lastButtonPressTime = 5000 ∧
      (loop demoConfig demoConnected (demoInput 6000 0 LOW LOW)).state.haveReportedBattery
        = false :=
  ⟨((connection_edge_side_effects demoConfig (setup 0) (demoInput 5000 1 LOW LOW)).1
      (by decide) (by decide)).2.2.1,
   ((connection_edge_side_effects demoConfig (setup 0) (demoInput 5000 1 LOW LOW)).1
      (by decide) (by decide)).2.2.2.2.trans (by decide),
   ((connection_edge_side_effects demoConfig demoConnected (demoInput 6000 0 LOW LOW)).2
      (by decide) (by decide)).2.1⟩

theorem run_timeSinceConnected (cfg : Config) :
    ∀ (inps : List Input) (s : State),
      (run cfg s inps).map (fun o => o.timeSinceLastConnected) =
        specTimeSinceConnected s.lastConnectedTime inps := by
  intro inps
  induction inps with
  | nil => intro s; rfl
  | cons inp rest ih =>
    intro s
    obtain ⟨_, _, hc, _⟩ := loop_times cfg s inp
    obtain ⟨_, f2, _⟩ := loop_fields cfg s inp
    simp only [run, List.map_cons, specTimeSinceConnected, ih, hc, f2]

/-- C19 (time since last connected): on every call where the device is connected,
`lastConnectedTime` becomes `currentTime` and the computed `timeSinceLastConnected` is 0;
on every call where it is not connected `lastConnectedTime` is unchanged and
`timeSinceLastConnected` is `currentTime - lastConnectedTime` modulo 2^32.  So along any
trace `timeSinceLastConnected` is the time elapsed, modulo 2^32, since the most recent
connected call, or since the initial `lastConnectedTime` (0 after `setup()`) if there was
none. -/
theorem time_since_last_connected (cfg : Config) (s : State) (inp : Input) :
    (inp.rawConnected = true →
        (loop cfg s inp).state.lastConnectedTime = inp.millis % WORD ∧
        (loop cfg s inp).timeSinceLastConnected = 0) ∧
    (inp.rawConnected = false →
        (loop cfg s inp).state.lastConnectedTime = s.lastConnectedTime ∧
        (loop cfg s inp).timeSinceLastConnected =
          sub32 (inp.millis % WORD) s.lastConnectedTime) ∧
    (∀ inps : List Input,
        (run cfg s inps).map (fun o => o.timeSinceLastConnected) =
          specTimeSinceConnected s.lastConnectedTime inps) ∧
    (∀ (m : Nat) (inps : List Input),
        (run cfg (setup m) inps).map (fun o => o.timeSinceLastConnected) =
          specTimeSinceConnected 0 inps) := by
  obtain ⟨_, _, hc, _⟩ := loop_times cfg s inp
  obtain ⟨_, f2, _⟩ := loop_fields cfg s inp
  refine ⟨?_, ?_, fun inps => run_timeSinceConnected cfg inps s,
    fun m inps => run_timeSinceConnected cfg inps (setup m)⟩
  · intro h
    rw [f2, hc, h]
    exact ⟨rfl, sub32_self _⟩
  · intro h
    rw [f2, hc, h]
    exact ⟨rfl, rfl⟩

/-- Witness for C19: connected at 0 and 500 ms, then disconnected at 700 and 900 ms: the
time since last connected is 0, 0, 200, 400. -/
theorem time_since_last_connected_witness :
    (loop demoConfig (setup 0) (demoInput 500 1 HIGH HIGH)).timeSinceLastConnected = 0 ∧
      (run demoConfig (setup 0) demoDrop).map (fun o => o.timeSinceLastConnected) =
        [0, 0, 200, 400] :=
  ⟨((time_since_last_connected demoConfig (setup 0) (demoInput 500 1 HIGH HIGH)).1
      (by decide)).2,
   ((time_since_last_connected demoConfig (setup 0) (demoInput 500 1 HIGH HIGH)).2.2.1
      demoDrop).trans (by decide)⟩

/-! ## C13: the sampler gate -/

theorem pinReadCalls_append (a b : List Effect) :
    pinReadCalls (a ++ b) = pinReadCalls a ++ pinReadCalls b := by
  induction a with
  | nil => rfl
  | cons e a ih => cases e <;> simp [pinReadCalls, ih]

theorem pinReadCalls_reads (ps : List Nat) : pinReadCalls (ps.map Effect.digitalRead) = ps := by
  induction ps with
  | nil => rfl
  | cons p ps ih => simp [pinReadCalls, ih]

theorem trackConnection_reads (s : State) (t c : Nat) :
    pinReadCalls (trackConnection s t c).effects = [] := by
  unfold trackConnection
  simp only []
  split_ifs <;> rfl

theorem reportButtons_reads (s : State) (t : Nat) (sc : Scan) :
    pinReadCalls (reportButtons s t sc).2 = [] := by
  unfold reportButtons
  simp only []
  split_ifs <;> rfl

theorem scheduleIndicator_reads (cfg : Config) (s : State) (t : Nat) (b : Bool) (d : Nat) :
    pinReadCalls (scheduleIndicator cfg s t b d).effects = [] := by
  unfold scheduleIndicator
  simp only []
  cases b <;> split_ifs <;> rfl

theorem loop_reads (cfg : Config) (s : State) (inp : Input) :
    pinReadCalls (loop cfg s inp).effects =
      (match (loop cfg s inp).sample with
       | some sc => sc.pinReads
       | none => []) := by
  unfold loop
  simp only []
  split
  · simp only [pinReadCalls_append, trackConnection_reads, scheduleIndicator_reads,
      reportButtons_reads, pinReadCalls_reads, List.nil_append, List.append_nil]
  · simp only [pinReadCalls_append, trackConnection_reads, scheduleIndicator_reads,
      List.nil_append, List.append_nil]

theorem scanFrom_pinReads_length (cfg : Config) (rd : Nat → Int) :
    ∀ (n i : Nat) (sc : Scan),
      sc.pinReads.length + min n 1 ≤ (scanFrom cfg rd n i sc).pinReads.length := by
  intro n
  induction n with
  | zero => intro i sc; simp [scanFrom]
  | succ n ih =>
    intro i sc
    cases ha : specIsActive cfg rd i with
    | false =>
      rw [scanFrom_inactive cfg rd n i sc ha]
      have := ih (i + 1) (sc.afterRead cfg i)
      have h1 : (sc.afterRead cfg i).pinReads.length = sc.pinReads.length + 1 := by
        simp [Scan.afterRead]
      omega
    | true =>
      rw [scanFrom_active cfg rd n i sc ha]
      split_ifs
      · simp [Scan.afterStore]
      · have := ih (i + 1) (sc.afterStore cfg i)
        have h1 : (sc.afterStore cfg i).pinReads.length = sc.pinReads.length + 1 := by
          simp [Scan.afterStore]
        omega

theorem sampleButtons_pinReads_ne_nil (cfg : Config) (rd : Nat → Int)
    (h : 0 < cfg.BUTTON_COUNT) : (sampleButtons cfg rd).pinReads ≠ [] := by
  have := scanFrom_pinReads_length cfg rd cfg.BUTTON_COUNT 0 Scan.start
  intro hnil
  unfold sampleButtons at hnil
  rw [hnil] at this
  simp only [Scan.start, List.length_nil] at this
  omega

/-- C13 (sampler gate and its frame): for every state and every call of `loop()`, the
sampling block runs iff the device is connected on this call and
`currentTime - lastButtonPressTime`, taken after the connection-established reset, is at
least `REPORT_BUTTONS_CHANGED_INTERVAL_MS` (1000); the pins read are those the sampling
block read, so with at least one button configured a pin is read iff the gate is open.
When the gate is open the dispatcher runs on the sampled buttons: the transport calls of
the call are the report or release of lines 224-242 for the sampled count against the
stored `lastPressedButtonCount` (none when they are equal), and `lastPressedButtonCount`
becomes the sampled count.  When the gate is closed no transport call is emitted and
`lastPressedButtonCount` is unchanged; in particular nothing is reported or released
while disconnected. -/
theorem sampler_gate_and_frame (cfg : Config) (s : State) (inp : Input) :
    (loop cfg s inp).timeSinceLastButtonPress =
        sub32 (loop cfg s inp).currentTime
          (if (loop cfg s inp).connectionEstablished then (loop cfg s inp).currentTime
           else s.lastButtonPressTime) ∧
      ((loop cfg s inp).sample = some (sampleButtons cfg inp.digitalRead) ↔
        (loop cfg s inp).isConnected = true ∧
        (loop cfg s inp).timeSinceLastButtonPress ≥ REPORT_BUTTONS_CHANGED_INTERVAL_MS) ∧
      ((loop cfg s inp).sample = none ↔
        ¬ ((loop cfg s inp).isConnected = true ∧
          (loop cfg s inp).timeSinceLastButtonPress ≥ REPORT_BUTTONS_CHANGED_INTERVAL_MS)) ∧
      pinReadCalls (loop cfg s inp).effects =
        (match (loop cfg s inp).sample with
         | some sc => sc.pinReads
         | none => []) ∧
      (0 < cfg.BUTTON_COUNT →
        (pinReadCalls (loop cfg s inp).effects ≠ [] ↔
          (loop cfg s inp).isConnected = true ∧
          (loop cfg s inp).timeSinceLastButtonPress ≥ REPORT_BUTTONS_CHANGED_INTERVAL_MS)) ∧
      ((loop cfg s inp).sample = none →
        transportCalls (loop cfg s inp).effects = [] ∧
        (loop cfg s inp).state.lastPressedButtonCount = s.lastPressedButtonCount) ∧
      ((loop cfg s inp).isConnected = false →
        (loop cfg s inp).sample = none ∧ transportCalls (loop cfg s inp).effects = []) ∧
      ((loop cfg s inp).isConnected = true ∧
          (loop cfg s inp).timeSinceLastButtonPress ≥ REPORT_BUTTONS_CHANGED_INTERVAL_MS →
        transportCalls (loop cfg s inp).effects =
          (if ((sampleButtons cfg inp.digitalRead).pressedButtonCount : Int) ≠
              s.lastPressedButtonCount then
            [if (sampleButtons cfg inp.digitalRead).pressedButtonCount > 0 then
               Effect.keyboardReport 0 (sampleButtons cfg inp.digitalRead).keyCodes
             else Effect.keyRelease]
           else []) ∧
        (loop cfg s inp).state.lastPressedButtonCount =
          (sampleButtons cfg inp.digitalRead).pressedButtonCount) := by
  obtain ⟨hct, hb, _, hsm⟩ := loop_times cfg s inp
  obtain ⟨hconn, he, _, _⟩ := loop_flags cfg s inp
  have hsome : (loop cfg s inp).sample = some (sampleButtons cfg inp.digitalRead) ↔
      (loop cfg s inp).isConnected = true ∧
      (loop cfg s inp).timeSinceLastButtonPress ≥ REPORT_BUTTONS_CHANGED_INTERVAL_MS := by
    rw [hconn]
    constructor
    · intro h
      rw [hsm] at h
      split_ifs at h with hg
      simpa using hg
    · intro h
      rw [hsm, if_pos (by simpa using h)]
  have hnone : (loop cfg s inp).sample = none ↔
      ¬ ((loop cfg s inp).isConnected = true ∧
        (loop cfg s inp).timeSinceLastButtonPress ≥ REPORT_BUTTONS_CHANGED_INTERVAL_MS) := by
    rw [← hsome]
    constructor
    · intro h h'; rw [h] at h'; exact Option.noConfusion h'
    · intro h
      rw [hsm] at h ⊢
      split_ifs at h ⊢ with hg
      · exact absurd rfl h
      · rfl
  refine ⟨?_, hsome, hnone, loop_reads cfg s inp, ?_, ?_, ?_, ?_⟩
  · rw [hb, he, hct]
  · intro hpos
    rw [← hsome, loop_reads]
    constructor
    · intro h
      cases hs : (loop cfg s inp).sample with
      | none => rw [hs] at h; exact absurd rfl h
      | some sc => rw [loop_sample_eq cfg s inp sc hs]
    · intro h
      rw [h]
      exact sampleButtons_pinReads_ne_nil cfg _ hpos
  · intro h
    exact ⟨loop_transport_none cfg s inp h, loop_lastPressed_none cfg s inp h⟩
  · intro h
    have hn : (loop cfg s inp).sample = none := by
      rw [hnone, h]; simp
    exact ⟨hn, loop_transport_none cfg s inp hn⟩
  · intro h
    have hs := hsome.mpr h
    have hrep : ∀ (st : State) (t : Nat) (sc : Scan),
        transportCalls (reportButtons st t sc).2 =
          (if (sc.pressedButtonCount : Int) ≠ st.lastPressedButtonCount then
            [if sc.pressedButtonCount > 0 then Effect.keyboardReport 0 sc.keyCodes
             else Effect.keyRelease]
           else []) ∧
        (reportButtons st t sc).1.lastPressedButtonCount = sc.pressedButtonCount := by
      intro st t sc
      unfold reportButtons
      simp only []
      split_ifs <;> simp_all [transportCalls, Effect.isTransport]
    unfold loop at hs ⊢
    simp only [] at hs ⊢
    rw [hs]
    simp only [transportCalls_append, trackConnection_transport, scheduleIndicator_transport,
      transportCalls_reads, scheduleIndicator_lastPressed, List.nil_append, List.append_nil]
    obtain ⟨r1, r2⟩ := hrep (trackConnection s (inp.millis % WORD) inp.connected).state
      (inp.millis % WORD) (sampleButtons cfg inp.digitalRead)
    rw [trackConnection_lastPressed] at r1
    exact ⟨r1, r2⟩

/-- Witness for C13: connected with both buttons down, 999 ms after the connection the
gate is closed and nothing is read or sent; 1000 ms after it both pins are read, the two
codes are reported and the stored count becomes 2. -/
theorem sampler_gate_and_frame_witness :
    (loop demoConfig demoConnected (demoInput 999 1 LOW LOW)).sample = none ∧
      transportCalls (loop demoConfig demoConnected (demoInput 999 1 LOW LOW)).effects = [] ∧
      pinReadCalls (loop demoConfig demoConnected (demoInput 1000 1 LOW LOW)).effects ≠ [] ∧
      transportCalls (loop demoConfig demoConnected (demoInput 1000 1 LOW LOW)).effects =
        [Effect.keyboardReport 0 [HID_KEY_VOLUME_DOWN, HID_KEY_VOLUME_DOWN, 0, 0, 0, 0]] ∧
      (loop demoConfig demoConnected (demoInput 1000 1 LOW LOW)).state.lastPressedButtonCount
        = 2 :=
  ⟨((sampler_gate_and_frame demoConfig demoConnected (demoInput 999 1 LOW LOW)).2.2.1).mpr
      (by decide),
   ((sampler_gate_and_frame demoConfig demoConnected (demoInput 999 1 LOW LOW)).2.2.2.2.2.1
      (by decide)).1,
   ((sampler_gate_and_frame demoConfig demoConnected (demoInput 1000 1 LOW LOW)).2.2.2.2.1
      (by decide)).mpr (by decide),
   ((sampler_gate_and_frame demoConfig demoConnected (demoInput 1000 1 LOW LOW)).2.2.2.2.2.2.2
      (by decide)).1.trans (by decide),
   ((sampler_gate_and_frame demoConfig demoConnected (demoInput 1000 1 LOW LOW)).2.2.2.2.2.2.2
      (by decide)).2.trans (by decide)⟩

/-! ## C17, C12: debounce and clock wraparound -/

theorem loop_gate_closed (cfg : Config) (s : State) (inp : Input)
    (h : sub32 (inp.millis % WORD) s.lastButtonPressTime < REPORT_BUTTONS_CHANGED_INTERVAL_MS) :
    (loop cfg s inp).sample = none ∧ transportCalls (loop cfg s inp).effects = [] := by
  obtain ⟨_, hb, _, hsm⟩ := loop_times cfg s inp
  have hlt : (loop cfg s inp).timeSinceLastButtonPress < REPORT_BUTTONS_CHANGED_INTERVAL_MS := by
    rw [hb]
    split_ifs
    · rw [sub32_self]; decide
    · exact h
  have hn : (loop cfg s inp).sample = none := by
    rw [hsm, if_neg]
    simp only [Bool.and_eq_true, decide_eq_true_eq, not_and]
    intro _
    omega
  exact ⟨hn, loop_transport_none cfg s inp hn⟩

theorem loop_established_closed (cfg : Config) (s : State) (inp : Input)
    (hc : inp.rawConnected = true) (hw : s.wasConnected = false) :
    (loop cfg s inp).sample = none := by
  obtain ⟨_, hb, _, hsm⟩ := loop_times cfg s inp
  have hb0 : (loop cfg s inp).timeSinceLastButtonPress = 0 := by
    rw [hb, hc, hw]; exact sub32_self _
  rw [hsm, hb0]
  simp [REPORT_BUTTONS_CHANGED_INTERVAL_MS]

theorem run_debounced (cfg : Config) (t : Nat) :
    ∀ (rest : List Input) (s : State), s.lastButtonPressTime = t →
      (∀ o ∈ run cfg s rest, o.connectionEstablished = false ∧
        sub32 o.currentTime t < REPORT_BUTTONS_CHANGED_INTERVAL_MS) →
      ∀ o ∈ run cfg s rest, o.sample = none ∧ transportCalls o.effects = [] := by
  intro rest
  induction rest with
  | nil => intro s _ _ o ho; simp [run] at ho
  | cons inp rest ih =>
    intro s hs hall o ho
    simp only [run, List.mem_cons] at ho hall
    obtain ⟨hne, hlt⟩ := hall _ (Or.inl rfl)
    have hct : (loop cfg s inp).currentTime = inp.millis % WORD := rfl
    rw [hct, ← hs] at hlt
    have hclosed := loop_gate_closed cfg s inp hlt
    rcases ho with rfl | ho
    · exact hclosed
    · refine ih _ ?_ (fun o' ho' => hall o' (Or.inr ho')) o ho
      obtain ⟨f1, _, _⟩ := loop_fields cfg s inp
      rw [(loop_flags cfg s inp).2.1] at hne
      rw [f1, hclosed.1, hne]
      exact hs

/-- C17 (activity refresh and debounce): on every sampling call at time t,
`lastButtonPressTime` becomes t when `pressedButtonCount > 0` and is unchanged when it is
0.  On every call whose time t' has `t' - lastButtonPressTime < 1000` modulo 2^32 the
sampler does not run and no transport call is emitted; so after a sampling call at time t
with a button down, every later call up to which no connection was established and whose
time is less than 1000 ms after t samples nothing and reports nothing: a release is never
reported less than 1000 ms after the sample that reported the press. -/
theorem activity_refresh_and_debounce (cfg : Config) (s : State) (inp : Input) (sc : Scan)
    (h : (loop cfg s inp).sample = some sc) :
    (loop cfg s inp).state.lastButtonPressTime =
        (if sc.pressedButtonCount > 0 then inp.millis % WORD else s.lastButtonPressTime) ∧
      (∀ (s' : State) (inp' : Input),
        sub32 (inp'.millis % WORD) s'.lastButtonPressTime < REPORT_BUTTONS_CHANGED_INTERVAL_MS →
        (loop cfg s' inp').sample = none ∧ transportCalls (loop cfg s' inp').effects = []) ∧
      (sc.pressedButtonCount > 0 → ∀ rest : List Input,
        (∀ o ∈ run cfg (loop cfg s inp).state rest, o.connectionEstablished = false ∧
          sub32 o.currentTime (inp.millis % WORD) < REPORT_BUTTONS_CHANGED_INTERVAL_MS) →
        ∀ o ∈ run cfg (loop cfg s inp).state rest,
          o.sample = none ∧ transportCalls o.effects = []) := by
  obtain ⟨f1, _, _⟩ := loop_fields cfg s inp
  have hne : (inp.rawConnected && !s.wasConnected) = false := by
    cases hb : (inp.rawConnected && !s.wasConnected) with
    | false => rfl
    | true =>
      simp only [Bool.and_eq_true, Bool.not_eq_true'] at hb
      have := (loop_established_closed cfg s inp hb.1 hb.2)
      rw [this] at h
      exact Option.noConfusion h
  have hl : (loop cfg s inp).state.lastButtonPressTime =
      (if sc.pressedButtonCount > 0 then inp.millis % WORD else s.lastButtonPressTime) := by
    rw [f1, h, hne]; rfl
  refine ⟨hl, fun s' inp' hlt => loop_gate_closed cfg s' inp' hlt, ?_⟩
  intro hpos rest hall
  exact run_debounced cfg (inp.millis % WORD) rest _ (by rw [hl, if_pos hpos]) hall

/-- Witness for C17: the board button is down on the sampling call at 1000 ms, which
reports it; a call at 1999 ms with the button up samples and releases nothing. -/
theorem activity_refresh_and_debounce_witness :
    (loop demoConfig demoConnected (demoInput 1000 1 LOW HIGH)).sample =
        some (sampleButtons demoConfig (demoInput 1000 1 LOW HIGH).digitalRead) ∧
      (loop demoConfig demoConnected (demoInput 1000 1 LOW HIGH)).state.lastButtonPressTime
        = 1000 ∧
      (run demoConfig (loop demoConfig demoConnected (demoInput 1000 1 LOW HIGH)).state
          [demoInput 1999 1 HIGH HIGH]).map (fun o => transportCalls o.effects) = [[]] :=
  ⟨by decide,
   (activity_refresh_and_debounce demoConfig demoConnected (demoInput 1000 1 LOW HIGH)
      (sampleButtons demoConfig (demoInput 1000 1 LOW HIGH).digitalRead) (by decide)).1.trans
      (by decide),
   by decide⟩

/-- C12 (clock wraparound): every elapsed time of `loop()` is an unsigned subtraction
modulo 2^32.  For every `d < 2^32`: if `currentTime` is `lastConnectionBlinkToggleTime + d`
modulo 2^32 then `timeSinceLastBlink = d` and the toggle timestamp is rearmed iff
`d ≥ blinkInterval`; if `currentTime` is `lastButtonPressTime + d` modulo 2^32 and no
connection is established on this call then `timeSinceLastButtonPress = d` and the sampler
runs iff the device is connected and `d ≥ 1000`; if `currentTime` is
`lastConnectedTime + d` modulo 2^32 and the device is not connected then
`timeSinceLastConnected = d`.  This holds whether or not the clock wrapped in between. -/
theorem elapsed_times_wrap (cfg : Config) (s : State) (inp : Input) (d : Nat) (hd : d < WORD) :
    (inp.millis % WORD = (s.lastConnectionBlinkToggleTime + d) % WORD →
        (loop cfg s inp).timeSinceLastBlink = d ∧
        (loop cfg s inp).state.lastConnectionBlinkToggleTime =
          (if d ≥ (loop cfg s inp).blinkInterval then inp.millis % WORD
           else s.lastConnectionBlinkToggleTime)) ∧
    (inp.millis % WORD = (s.lastButtonPressTime + d) % WORD →
        (loop cfg s inp).connectionEstablished = false →
        (loop cfg s inp).timeSinceLastButtonPress = d ∧
        ((loop cfg s inp).sample = some (sampleButtons cfg inp.digitalRead) ↔
          (loop cfg s inp).isConnected = true ∧ d ≥ REPORT_BUTTONS_CHANGED_INTERVAL_MS)) ∧
    (inp.millis % WORD = (s.lastConnectedTime + d) % WORD →
        (loop cfg s inp).isConnected = false →
        (loop cfg s inp).timeSinceLastConnected = d) := by
  obtain ⟨_, hb, hc, hsm⟩ := loop_times cfg s inp
  obtain ⟨hconn, he, _, _⟩ := loop_flags cfg s inp
  refine ⟨?_, ?_, ?_⟩
  · intro ht
    obtain ⟨s', h1, _, hst, _, hint, htime, _⟩ := loop_led cfg s inp
    have hs := (scheduleIndicator_state cfg s' (inp.millis % WORD) inp.rawConnected
      (loop cfg s inp).timeSinceLastConnected).2
    have hd' : sub32 (inp.millis % WORD) s.lastConnectionBlinkToggleTime = d := by
      rw [ht]; exact sub32_add _ _ hd
    rw [← hst, h1, hd', ← hint] at hs
    exact ⟨by rw [htime, hd'], hs⟩
  · intro ht hne
    rw [he] at hne
    have hd' : (loop cfg s inp).timeSinceLastButtonPress = d := by
      rw [hb, hne, ht]; exact sub32_add _ _ hd
    refine ⟨hd', ?_⟩
    rw [hsm, hd', hconn]
    constructor
    · intro h
      split_ifs at h with hg
      simpa using hg
    · intro h
      rw [if_pos (by simpa using h)]
  · intro ht hnc
    rw [hconn] at hnc
    rw [hc, hnc, ht]
    exact sub32_add _ _ hd

/-- Witness for C12: the timestamps are 500 ms before the wrap and the clock reads 500
after it: all three elapsed times are 1000 and the sampler runs. -/
theorem elapsed_times_wrap_witness :
    (loop demoConfig demoNearWrap (demoInput (WORD + 500) 1 LOW HIGH)).timeSinceLastBlink
        = 1000 ∧
      (loop demoConfig demoNearWrap (demoInput (WORD + 500) 1 LOW HIGH)).timeSinceLastButtonPress
        = 1000 ∧
      (loop demoConfig demoNearWrap (demoInput (WORD + 500) 0 LOW HIGH)).timeSinceLastConnected
        = 1000 :=
  ⟨((elapsed_times_wrap demoConfig demoNearWrap (demoInput (WORD + 500) 1 LOW HIGH) 1000
      (by decide)).1 (by decide)).1,
   ((elapsed_times_wrap demoConfig demoNearWrap (demoInput (WORD + 500) 1 LOW HIGH) 1000
      (by decide)).2.1 (by decide) (by decide)).1,
   (elapsed_times_wrap demoConfig demoNearWrap (demoInput (WORD + 500) 0 LOW HIGH) 1000
      (by decide)).2.2 (by decide) (by decide)⟩

/-! ## C14: release follows press -/

theorem traceTransport_cons (cfg : Config) (s : State) (inp : Input) (rest : List Input) :
    traceTransport cfg s (inp :: rest) =
      transportCalls (loop cfg s inp).effects ++ traceTransport cfg (loop cfg s inp).state rest := by
  simp only [traceTransport, run, List.flatMap_cons, transportCalls_append]

/-- One call of `loop()` as the dispatcher sees it: either nothing is sent and the stored
count stays, or a report is sent and the stored count becomes positive, or a release is
sent, the stored count was not 0 and becomes 0. -/
theorem loop_dispatch_cases (cfg : Config) (s : State) (inp : Input) :
    (transportCalls (loop cfg s inp).effects = [] ∧
        (loop cfg s inp).state.lastPressedButtonCount = s.lastPressedButtonCount) ∨
      (∃ kc, transportCalls (loop cfg s inp).effects = [Effect.keyboardReport 0 kc] ∧
        0 < (loop cfg s inp).state.lastPressedButtonCount) ∨
      (transportCalls (loop cfg s inp).effects = [Effect.keyRelease] ∧
        s.lastPressedButtonCount ≠ 0 ∧ (loop cfg s inp).state.lastPressedButtonCount = 0) := by
  cases hs : (loop cfg s inp).sample with
  | none =>
    exact Or.inl ⟨loop_transport_none cfg s inp hs, loop_lastPressed_none cfg s inp hs⟩
  | some sc =>
    have ht := loop_transport_some cfg s inp sc hs
    have hl := loop_lastPressed_some cfg s inp sc hs
    by_cases hc : (sc.pressedButtonCount : Int) ≠ s.lastPressedButtonCount
    · rw [if_pos hc, reportCall] at ht
      by_cases hp : sc.pressedButtonCount > 0
      · rw [if_pos hp] at ht
        exact Or.inr (Or.inl ⟨_, ht, by rw [hl]; exact_mod_cast hp⟩)
      · rw [if_neg hp] at ht
        have h0 : sc.pressedButtonCount = 0 := by omega
        refine Or.inr (Or.inr ⟨ht, ?_, by rw [hl, h0]; rfl⟩)
        intro h
        apply hc
        rw [h0, h]
        rfl
    · rw [if_neg hc] at ht
      refine Or.inl ⟨ht, ?_⟩
      rw [hl]
      by_contra h
      exact hc h

theorem trace_release_follows_press (cfg : Config) :
    ∀ (inps : List Input) (s : State), 0 ≤ s.lastPressedButtonCount →
      List.Chain' (fun a b => ¬ (a = Effect.keyRelease ∧ b = Effect.keyRelease))
          (traceTransport cfg s inps) ∧
        (∀ e ∈ (traceTransport cfg s inps).head?, e = Effect.keyRelease →
          0 < s.lastPressedButtonCount) ∧
        0 ≤ (runState cfg s inps).lastPressedButtonCount ∧
        (0 < (runState cfg s inps).lastPressedButtonCount ↔
          ((traceTransport cfg s inps).getLast?.map Effect.isReport).getD
            (decide (0 < s.lastPressedButtonCount)) = true) := by
  intro inps
  induction inps with
  | nil =>
    intro s hs
    simp [traceTransport, run, runState, transportCalls, hs]
  | cons inp rest ih =>
    intro s hs
    rw [traceTransport_cons]
    simp only [runState]
    rcases loop_dispatch_cases cfg s inp with ⟨ht, hl⟩ | ⟨kc, ht, hl⟩ | ⟨ht, hne, hl⟩
    · obtain ⟨i1, i2, i3, i4⟩ := ih (loop cfg s inp).state (by rw [hl]; exact hs)
      rw [hl] at i2 i4
      rw [ht, List.nil_append]
      exact ⟨i1, i2, i3, i4⟩
    · obtain ⟨i1, i2, i3, i4⟩ := ih (loop cfg s inp).state (le_of_lt hl)
      rw [ht, List.singleton_append]
      refine ⟨List.chain'_cons'.mpr ⟨?_, i1⟩, ?_, i3, ?_⟩
      · intro y _ h
        exact Effect.noConfusion h.1
      · intro e he hrel
        simp only [List.head?_cons, Option.mem_def, Option.some.injEq] at he
        rw [← he] at hrel
        exact Effect.noConfusion hrel
      · rw [i4]
        cases hT : traceTransport cfg (loop cfg s inp).state rest with
        | nil => simp [hl, Effect.isReport]
        | cons a l =>
          rw [List.getLast?_cons_cons, List.getLast?_eq_getLast _ (List.cons_ne_nil a l)]
          rfl
    · obtain ⟨i1, i2, i3, i4⟩ := ih (loop cfg s inp).state (by rw [hl])
      rw [ht, List.singleton_append]
      refine ⟨List.chain'_cons'.mpr ⟨?_, i1⟩, ?_, i3, ?_⟩
      · intro y hy h
        have := i2 y hy h.2
        rw [hl] at this
        exact lt_irrefl _ this
      · intro e _ _
        omega
      · rw [i4]
        cases hT : traceTransport cfg (loop cfg s inp).state rest with
        | nil => simp [hl, Effect.isReport]
        | cons a l =>
          rw [List.getLast?_cons_cons, List.getLast?_eq_getLast _ (List.cons_ne_nil a l)]
          rfl

theorem transportCalls_kind (es : List Effect) :
    ∀ e ∈ transportCalls es, e = Effect.keyRelease ∨ ∃ m kc, e = Effect.keyboardReport m kc := by
  intro e he
  have := (List.mem_filter.mp he).2
  cases e with
  | keyRelease => exact Or.inl rfl
  | keyboardReport m kc => exact Or.inr ⟨m, kc, rfl⟩
  | serial _ => exact Bool.noConfusion this
  | digitalRead _ => exact Bool.noConfusion this
  | digitalWrite _ _ => exact Bool.noConfusion this

/-- C14 (release follows press): in every trace of calls of `loop()` from a state with
`lastPressedButtonCount = 0`, every `keyRelease` call is immediately preceded, among the
transport calls, by a `keyboardReport` call (so the first transport call is never a
release and two releases are never consecutive); and after the trace
`lastPressedButtonCount > 0` iff the most recent transport call was a `keyboardReport`. -/
theorem release_follows_press (cfg : Config) (s : State) (inps : List Input)
    (h : s.lastPressedButtonCount = 0) :
    (∀ before after : List Effect,
        traceTransport cfg s inps = before ++ Effect.keyRelease :: after →
        ∃ earlier m kc, before = earlier ++ [Effect.keyboardReport m kc]) ∧
      (0 < (runState cfg s inps).lastPressedButtonCount ↔
        (traceTransport cfg s inps).getLast?.map Effect.isReport = some true) := by
  obtain ⟨hchain, hhead, _, hlast⟩ := trace_release_follows_press cfg inps s (by rw [h])
  constructor
  · intro before after hT
    rcases List.eq_nil_or_concat before with rfl | ⟨earlier, x, rfl⟩
    · rw [List.nil_append] at hT
      have := hhead Effect.keyRelease (by rw [hT]; rfl) rfl
      rw [h] at this
      exact absurd this (lt_irrefl _)
    · have hx : x ∈ traceTransport cfg s inps := by
        rw [hT]; simp
      rcases transportCalls_kind _ x hx with rfl | ⟨m, kc, rfl⟩
      · rw [hT, List.concat_eq_append, List.append_assoc, List.singleton_append] at hchain
        have := (List.chain'_split.mp hchain).2
        exact absurd ⟨rfl, rfl⟩ (List.chain'_cons.mp this).1
      · exact ⟨earlier, m, kc, List.concat_eq_append _ _⟩
  · rw [hlast, h]
    cases (traceTransport cfg s inps).getLast? with
    | none => simp
    | some e => simp

/-- Witness for C14: the trace of `demoPresses` sends report, report, release and ends
with `lastPressedButtonCount = 0`. -/
theorem release_follows_press_witness :
    demoConnected.lastPressedButtonCount = 0 ∧
      (traceTransport demoConfig demoConnected demoPresses).map Effect.isReport =
        [true, true, false] ∧
      ¬ (0 < (runState demoConfig demoConnected demoPresses).lastPressedButtonCount) :=
  ⟨by decide, by decide,
   fun hpos => absurd
     ((release_follows_press demoConfig demoConnected demoPresses (by decide)).2.mp hpos)
     (by decide)⟩

/-! ## C20: the stored count across a reconnect -/

/-- C20 (stale reported count across a reconnect): a call of `loop()` on which the
connection is lost or established emits no transport call and leaves
`lastPressedButtonCount` as it was.  So in the trace `demoReconnect` a press is not
reported: a press with count 1 is reported, the connection is lost and re-established, and
on the first sampling call after the reconnect one button is down, the sampled count 1
equals the stale `lastPressedButtonCount`, and no transport call is emitted. -/
theorem stale_count_across_reconnect :
    (∀ (cfg : Config) (s : State) (inp : Input),
        (loop cfg s inp).connectionLost = true ∨ (loop cfg s inp).connectionEstablished = true →
        transportCalls (loop cfg s inp).effects = [] ∧
        (loop cfg s inp).state.lastPressedButtonCount = s.lastPressedButtonCount) ∧
      (run demoConfig (setup 0) demoReconnect).map
          (fun o => (o.connectionEstablished, o.connectionLost,
            o.sample.map Scan.pressedButtonCount, transportCalls o.effects,
            o.state.lastPressedButtonCount)) =
        [(true, false, none, [], 0),
         (false, false, some 1, [Effect.keyboardReport 0 [HID_KEY_VOLUME_DOWN, 0, 0, 0, 0, 0]], 1),
         (false, true, none, [], 1),
         (true, false, none, [], 1),
         (false, false, some 1, [], 1)] := by
  constructor
  · intro cfg s inp h
    obtain ⟨_, he, hl, _⟩ := loop_flags cfg s inp
    obtain ⟨_, _, _, hsm⟩ := loop_times cfg s inp
    have hn : (loop cfg s inp).sample = none := by
      rcases h with h | h
      · rw [hl] at h
        simp only [Bool.and_eq_true, Bool.not_eq_true'] at h
        rw [hsm, h.1]
        rfl
      · rw [he] at h
        simp only [Bool.and_eq_true, Bool.not_eq_true'] at h
        exact loop_established_closed cfg s inp h.1 h.2
    exact ⟨loop_transport_none cfg s inp hn, loop_lastPressed_none cfg s inp hn⟩
  · decide

/-- Witness for C20: the call of `demoReconnect` that loses the connection keeps the
stored count 1. -/
theorem stale_count_across_reconnect_witness :
    (loop demoConfig (runState demoConfig (setup 0) (demoReconnect.take 2))
        (demoInput 1500 0 HIGH HIGH)).connectionLost = true ∧
      (loop demoConfig (runState demoConfig (setup 0) (demoReconnect.take 2))
        (demoInput 1500 0 HIGH HIGH)).state.lastPressedButtonCount = 1 :=
  ⟨by decide,
   ((stale_count_across_reconnect.1 demoConfig
      (runState demoConfig (setup 0) (demoReconnect.take 2)) (demoInput 1500 0 HIGH HIGH)
      (Or.inl (by decide))).2).trans (by decide)⟩

/-! ## C16: one pulse per interval -/

/-- The led part of one call of `loop()`, in terms of the globals at its start. -/
theorem loop_blink (cfg : Config) (s : State) (inp : Input) :
    (loop cfg s inp).timeSinceLastBlink =
        sub32 (inp.millis % WORD) s.lastConnectionBlinkToggleTime ∧
      (loop cfg s inp).blinkInterval = blinkIntervalFor inp.rawConnected ∧
      (loop cfg s inp).state.connectionBlinkState =
        targetLevelFor (loop cfg s inp).timeSinceLastBlink ∧
      (loop cfg s inp).state.lastConnectionBlinkToggleTime =
        (if (loop cfg s inp).rearmed then inp.millis % WORD
         else s.lastConnectionBlinkToggleTime) := by
  obtain ⟨s', h1, _, hst, _, hint, htime, _⟩ := loop_led cfg s inp
  obtain ⟨hb, ht⟩ := scheduleIndicator_state cfg s' (inp.millis % WORD) inp.rawConnected
    (loop cfg s inp).timeSinceLastConnected
  rw [← hst, h1, ← htime] at hb ht
  rw [← hint] at ht
  refine ⟨htime, hint, hb, ?_⟩
  rw [ht, Outcome.rearmed]
  by_cases h : (loop cfg s inp).timeSinceLastBlink ≥ (loop cfg s inp).blinkInterval
  · rw [if_pos h, if_pos (decide_eq_true h)]
  · rw [if_neg h, if_neg (by simpa using h)]

theorem blinkIntervalFor_ge (b : Bool) : 1000 ≤ blinkIntervalFor b := by
  unfold blinkIntervalFor
  split_ifs <;> decide

theorem loop_rearmed_low (cfg : Config) (s : State) (inp : Input)
    (h : (loop cfg s inp).rearmed = true) :
    (loop cfg s inp).state.connectionBlinkState = LOW := by
  obtain ⟨_, hint, hb, _⟩ := loop_blink cfg s inp
  have h' : (loop cfg s inp).timeSinceLastBlink ≥ (loop cfg s inp).blinkInterval := by
    simpa [Outcome.rearmed] using h
  rw [hint] at h'
  have := blinkIntervalFor_ge inp.rawConnected
  rw [hb, targetLevelFor, CONNECTION_BLINK_ON_DURATION_MS, if_neg (by omega)]

theorem sub32_of_le (a b : Nat) (hab : b ≤ a) (ha : a < WORD) : sub32 a b = a - b := by
  unfold sub32
  unfold WORD at *
  omega

theorem targetLevelFor_mono (a b : Nat) (hab : a ≤ b) (h : targetLevelFor a = LOW) :
    targetLevelFor b = LOW := by
  unfold targetLevelFor CONNECTION_BLINK_ON_DURATION_MS at *
  split_ifs at h with ha
  · exact absurd h (by decide)
  · rw [if_neg (by omega)]

/-- A stretch of calls without rearm, at non-decreasing non-wrapping times from `lo` on,
where `lo` is not before the toggle timestamp. -/
theorem run_no_rearm (cfg : Config) (T : Nat) :
    ∀ (rest : List Input) (s : State) (lo : Nat), s.lastConnectionBlinkToggleTime = T →
      T ≤ lo →
      (∀ o ∈ run cfg s rest, o.rearmed = false) →
      List.Pairwise (fun a b : Input => a.millis ≤ b.millis) rest →
      (∀ x ∈ rest, lo ≤ x.millis ∧ x.millis < WORD) →
      (∀ o ∈ run cfg s rest, o.timeSinceLastBlink = o.currentTime - T ∧
        lo - T ≤ o.timeSinceLastBlink ∧
        o.state.connectionBlinkState = targetLevelFor (o.currentTime - T)) ∧
      List.Chain' (fun a b : Int => a = LOW → b = LOW) (ledLevels (run cfg s rest)) := by
  intro rest
  induction rest with
  | nil => intro s lo _ _ _ _ _; simp [run, ledLevels]
  | cons inp rest ih =>
    intro s lo hT hlo hno hpair hbound
    obtain ⟨htime, _, hb, ht⟩ := loop_blink cfg s inp
    obtain ⟨hge, hlt⟩ := hbound inp (List.mem_cons_self _ _)
    have hmod : inp.millis % WORD = inp.millis := Nat.mod_eq_of_lt hlt
    have hnr : (loop cfg s inp).rearmed = false := hno _ (by simp [run])
    have hct : (loop cfg s inp).currentTime = inp.millis := hmod
    rw [hT, hmod, sub32_of_le _ _ (le_trans hlo hge) hlt] at htime
    rw [hnr, hT] at ht
    rw [htime] at hb
    obtain ⟨hp1, hp2⟩ := List.pairwise_cons.mp hpair
    obtain ⟨ih1, ih2⟩ := ih (loop cfg s inp).state inp.millis (by simpa using ht)
      (le_trans hlo hge)
      (fun o ho => hno o (by simp only [run, List.mem_cons]; exact Or.inr ho)) hp2
      (fun x hx => ⟨hp1 x hx, (hbound x (List.mem_cons_of_mem _ hx)).2⟩)
    constructor
    · intro o ho
      simp only [run, List.mem_cons] at ho
      rcases ho with rfl | ho
      · rw [hct]
        exact ⟨htime, by rw [htime]; omega, hb⟩
      · obtain ⟨a1, a2, a3⟩ := ih1 o ho
        exact ⟨a1, by omega, a3⟩
    · simp only [run, ledLevels, List.map_cons]
      refine List.chain'_cons'.mpr ⟨?_, ih2⟩
      intro y hy hlow
      have hy' : y ∈ ledLevels (run cfg (loop cfg s inp).state rest) :=
        List.mem_of_mem_head? hy
      obtain ⟨o, ho, rfl⟩ := List.mem_map.mp hy'
      obtain ⟨a1, a2, a3⟩ := ih1 o ho
      rw [hb] at hlow
      rw [a3, ← a1]
      exact targetLevelFor_mono _ _ a2 hlow

/-- C16 (one pulse per interval): for every state, take a call of `loop()` that rearms
`lastConnectionBlinkToggleTime`, followed by calls at non-decreasing, non-wrapping times
none of which rearms.  The led is LOW after the rearm call; after each following call the
elapsed time is the time since the rearm call and the led is HIGH iff it is at most 10 ms;
once a following call has left the led LOW every later one leaves it LOW, so the levels
between two rearms have at most one run of HIGH; and a call that rearms next leaves the
led LOW as well. -/
theorem one_pulse_per_interval (cfg : Config) (s : State) (inp : Input) (rest : List Input)
    (hrearm : (loop cfg s inp).rearmed = true)
    (hno : ∀ o ∈ run cfg (loop cfg s inp).state rest, o.rearmed = false)
    (hsorted : List.Pairwise (fun a b : Input => a.millis ≤ b.millis) (inp :: rest))
    (hwrap : ∀ x ∈ inp :: rest, x.millis < WORD) :
    (loop cfg s inp).state.connectionBlinkState = LOW ∧
      (∀ o ∈ run cfg (loop cfg s inp).state rest,
        o.timeSinceLastBlink = o.currentTime - inp.millis ∧
        (o.state.connectionBlinkState = HIGH ↔
          o.timeSinceLastBlink ≤ CONNECTION_BLINK_ON_DURATION_MS)) ∧
      List.Chain' (fun a b : Int => a = LOW → b = LOW)
        (ledLevels (run cfg (loop cfg s inp).state rest)) ∧
      (∀ next : Input,
        (loop cfg (runState cfg (loop cfg s inp).state rest) next).rearmed = true →
        (loop cfg (runState cfg (loop cfg s inp).state rest) next).state.connectionBlinkState
          = LOW) := by
  obtain ⟨_, _, _, ht⟩ := loop_blink cfg s inp
  have hlt : inp.millis < WORD := hwrap inp (List.mem_cons_self _ _)
  rw [hrearm, if_pos rfl, Nat.mod_eq_of_lt hlt] at ht
  obtain ⟨hp1, hp2⟩ := List.pairwise_cons.mp hsorted
  obtain ⟨r1, r2⟩ := run_no_rearm cfg inp.millis rest (loop cfg s inp).state inp.millis ht
    (le_refl _) hno hp2
    (fun x hx => ⟨hp1 x hx, hwrap x (List.mem_cons_of_mem _ hx)⟩)
  refine ⟨loop_rearmed_low cfg s inp hrearm, ?_, r2, fun next h => loop_rearmed_low cfg _ next h⟩
  intro o ho
  obtain ⟨a1, _, a3⟩ := r1 o ho
  refine ⟨a1, ?_⟩
  rw [a3, ← a1, targetLevelFor]
  split_ifs with h <;> simp [h, HIGH, LOW]

/-- Witness for C16: disconnected, the call at 1000 ms after `setup()` rearms; the calls
at 1001, 1005, 1011 and 1500 ms leave the led HIGH, HIGH, LOW, LOW. -/
theorem one_pulse_per_interval_witness :
    (loop demoConfig (setup 0) (demoInput 1000 0 HIGH HIGH)).rearmed = true ∧
      (loop demoConfig (setup 0) (demoInput 1000 0 HIGH HIGH)).state.connectionBlinkState
        = LOW ∧
      ledLevels (run demoConfig (loop demoConfig (setup 0) (demoInput 1000 0 HIGH HIGH)).state
        demoAfterRearm) = [HIGH, HIGH, LOW, LOW] :=
  ⟨by decide,
   (one_pulse_per_interval demoConfig (setup 0) (demoInput 1000 0 HIGH HIGH) demoAfterRearm
      (by decide) (by decide) (by decide) (by decide)).1,
   by decide⟩

/-! ## C15: the duty cycle while connected -/

theorem highCount_closed :
    ∀ (n e : Nat), n ≤ 10000 →
      highCount e n =
        min n (11 - e) + min 10 (n - 1 - (if e < 10000 then 10000 - e else 0)) := by
  intro n
  induction n with
  | zero => intro e _; simp [highCount]
  | succ n ih =>
    intro e hn
    rw [highCount, ih _ (by omega)]
    unfold nextElapsed CONNECTED_BLINK_INTERVAL_MS CONNECTION_BLINK_ON_DURATION_MS
    split_ifs <;> omega

theorem highCount_window (e : Nat) : 10 ≤ highCount e 10000 ∧ highCount e 10000 ≤ 11 := by
  rw [highCount_closed 10000 e (le_refl _)]
  split_ifs <;> omega

theorem run_take (cfg : Config) :
    ∀ (n : Nat) (inps : List Input) (s : State),
      (run cfg s inps).take n = run cfg s (inps.take n) := by
  intro n
  induction n with
  | zero => intro inps s; simp [run]
  | succ n ih =>
    intro inps s
    cases inps with
    | nil => simp [run]
    | cons inp rest => simp [run, ih]

theorem run_drop (cfg : Config) :
    ∀ (n : Nat) (inps : List Input) (s : State),
      (run cfg s inps).drop n = run cfg (runState cfg s (inps.take n)) (inps.drop n) := by
  intro n
  induction n with
  | zero => intro inps s; simp [runState]
  | succ n ih =>
    intro inps s
    cases inps with
    | nil => simp [run, runState]
    | cons inp rest => simp [run, runState, ih]

theorem run_connected_count (cfg : Config) :
    ∀ (inps : List Input) (s : State) (t0 : Nat),
      (∀ (k : Nat) (x : Input), inps[k]? = some x →
        x.millis = t0 + k ∧ x.rawConnected = true) →
      (ledLevels (run cfg s inps)).count HIGH =
        highCount (sub32 (t0 % WORD) s.lastConnectionBlinkToggleTime) inps.length := by
  intro inps
  induction inps with
  | nil => intro s t0 _; rfl
  | cons inp rest ih =>
    intro s t0 h
    obtain ⟨hm, hc⟩ := h 0 inp (by simp)
    obtain ⟨htime, hint, hb, ht⟩ := loop_blink cfg s inp
    rw [Nat.add_zero] at hm
    rw [hm] at htime ht
    rw [hc] at hint
    have hrest := ih (loop cfg s inp).state (t0 + 1) (fun k x hk => by
      obtain ⟨h1, h2⟩ := h (k + 1) x (by simpa using hk)
      exact ⟨by omega, h2⟩)
    have hnext : sub32 ((t0 + 1) % WORD) (loop cfg s inp).state.lastConnectionBlinkToggleTime =
        nextElapsed (sub32 (t0 % WORD) s.lastConnectionBlinkToggleTime) := by
      rw [ht, Outcome.rearmed, hint, htime, blinkIntervalFor, if_pos rfl, nextElapsed]
      by_cases hge : sub32 (t0 % WORD) s.lastConnectionBlinkToggleTime ≥
          CONNECTED_BLINK_INTERVAL_MS
      · rw [if_pos (decide_eq_true hge), if_pos hge]
        unfold sub32 WORD
        omega
      · rw [if_neg (by simpa using hge), if_neg hge]
        unfold sub32 WORD CONNECTED_BLINK_INTERVAL_MS at *
        omega
    simp only [run, ledLevels, List.map_cons, List.length_cons, highCount]
    rw [List.count_cons]
    have hrest' : List.count HIGH
        (List.map (fun o => o.state.connectionBlinkState) (run cfg (loop cfg s inp).state rest))
        = highCount (nextElapsed (sub32 (t0 % WORD) s.lastConnectionBlinkToggleTime))
            rest.length := by
      rw [← hnext]; exact hrest
    rw [hrest', hb, htime, targetLevelFor, Nat.add_comm]
    congr 1
    split_ifs <;> simp_all [HIGH, LOW]

theorem demoTenSeconds_consecutive :
    ∀ (k : Nat) (x : Input), demoTenSeconds[k]? = some x →
      x.millis = 0 + k ∧ x.rawConnected = true := by
  intro k x hx
  simp only [demoTenSeconds, List.getElem?_map] at hx
  by_cases hk : k < 10000
  · rw [List.getElem?_range hk] at hx
    simp only [Option.map_some', Option.some.injEq] at hx
    subst hx
    exact ⟨by simp [demoInput], rfl⟩
  · rw [List.getElem?_eq_none (by simpa using hk)] at hx
    exact Option.noConfusion hx

/-- C15 (duty cycle while connected): for a run that is connected on every call, with one
call per millisecond at consecutive times, the led is HIGH after a call exactly when
`timeSinceLastBlink ≤ 10`, and in every window of 10000 consecutive calls the number of
calls that end with the led HIGH is at least 10 and at most 11.  (Times are taken modulo
2^32 by `loop()`, so this holds with or without a clock wrap.) -/
theorem connected_duty_cycle (cfg : Config) (s : State) (inps : List Input) (t0 : Nat)
    (h : ∀ (k : Nat) (x : Input), inps[k]? = some x →
      x.millis = t0 + k ∧ x.rawConnected = true) :
    (∀ o ∈ run cfg s inps,
        (o.state.connectionBlinkState = HIGH ↔
          o.timeSinceLastBlink ≤ CONNECTION_BLINK_ON_DURATION_MS)) ∧
      ∀ a : Nat, a + 10000 ≤ inps.length →
        10 ≤ (ledLevels (((run cfg s inps).drop a).take 10000)).count HIGH ∧
        (ledLevels (((run cfg s inps).drop a).take 10000)).count HIGH ≤ 11 := by
  constructor
  · intro o ho
    obtain ⟨s', inp, rfl⟩ := run_mem cfg inps s o ho
    obtain ⟨_, _, hb, _⟩ := loop_blink cfg s' inp
    rw [hb, targetLevelFor]
    split_ifs with hle <;> simp [hle, HIGH, LOW]
  · intro a ha
    rw [run_drop, run_take]
    have hlen : ((inps.drop a).take 10000).length = 10000 := by
      rw [List.length_take, List.length_drop]; omega
    have hcount := run_connected_count cfg ((inps.drop a).take 10000)
      (runState cfg s (inps.take a)) (t0 + a) (fun k x hk => by
        rw [List.getElem?_take] at hk
        split_ifs at hk
        rw [List.getElem?_drop] at hk
        obtain ⟨h1, h2⟩ := h (a + k) x hk
        exact ⟨by omega, h2⟩)
    rw [hcount, hlen]
    exact highCount_window _

/-- Witness for C15: ten thousand connected calls at 0, 1, ..., 9999 ms after `setup()`:
between 10 and 11 of them leave the led HIGH. -/
theorem connected_duty_cycle_witness :
    10 ≤ (ledLevels (((run demoConfig (setup 0) demoTenSeconds).drop 0).take 10000)).count HIGH ∧
      (ledLevels (((run demoConfig (setup 0) demoTenSeconds).drop 0).take 10000)).count HIGH
        ≤ 11 :=
  (connected_duty_cycle demoConfig (setup 0) demoTenSeconds 0 demoTenSeconds_consecutive).2 0
    (by simp [demoTenSeconds])

end PrinterRemote
